import Mathlib

/-!
# AdvDrive: a two-relay drive controller with limit switches

A shallow embedding of `src/AdvDrive.h`.

* The object's private fields are the structure `AdvDrive`.
* The output pins the object writes with `digitalWrite` are part of `Sys`:
  the level of every pin, and the chronological list of writes.
* What the object reads from outside in one call is an `Env`: the raw level
  `digitalRead` gives for each pin, the millisecond clock, and the memory the
  current pointer `_curr` points into.  One `Env` is one sample: every
  `millis()` inside a single call sees the same clock value.
* `int` is 32 bits wide and `millis()` is a 32-bit unsigned counter (the class
  uses `uint32_t` pins and the `NC` sentinel of the 32-bit Arduino cores).
* `float` values are modelled by their order: a rational, an infinity or NaN.
-/

namespace AdvDrive

/-! ## Machine integers -/

/-- Number of values of a 32-bit word. -/
def wrap32 : Nat := 4294967296

/-- Conversion of an `int` to `uint32_t` / `unsigned long`. -/
def toU32 (i : Int) : Nat := (i % 4294967296).toNat

/-- Conversion of an unsigned 32-bit value to `int` (two's complement). -/
def toI32 (n : Nat) : Int :=
  if n % wrap32 < 2147483648 then ((n % wrap32 : Nat) : Int)
  else ((n % wrap32 : Nat) : Int) - 4294967296

/-- The `int` product `a * b`; outside the `int` range (undefined behaviour in
C++) the two's complement wrap is taken. -/
def mulInt (a b : Int) : Int := toI32 (toU32 (a * b))

/-- Unsigned 32-bit subtraction `a - b`. -/
def subU32 (a b : Nat) : Nat := (a % wrap32 + wrap32 - b % wrap32) % wrap32

/-! ## Floats, as far as `>` and `<=` see them -/

/-- A `float` value: NaN, an infinity, or a finite value given by a rational. -/
inductive CFloat where
  | nan : CFloat
  | negInf : CFloat
  | fin (q : ℚ) : CFloat
  | posInf : CFloat

/-- The C++ comparison `a > b` on floats (false when either side is NaN). -/
def CFloat.gt : CFloat → CFloat → Bool
  | .nan, _ => false
  | _, .nan => false
  | .negInf, _ => false
  | .fin _, .negInf => true
  | .fin a, .fin b => decide (b < a)
  | .fin _, .posInf => false
  | .posInf, .posInf => false
  | .posInf, _ => true

/-- The C++ comparison `a <= b` on floats (false when either side is NaN). -/
def CFloat.le : CFloat → CFloat → Bool
  | .nan, _ => false
  | _, .nan => false
  | .negInf, _ => true
  | .fin _, .negInf => false
  | .fin a, .fin b => decide (a ≤ b)
  | .fin _, .posInf => true
  | .posInf, .posInf => true
  | .posInf, _ => false

/-! ## Constants -/

/-- Modelled from the spec: the `NC` ("not connected") pin sentinel, which
`Arduino.h` of the board core declares and `src/` does not; the value is the
one of the 32-bit cores. Only equality with `NC` is ever used. -/
def NC : Nat := 4294967295

/-- Arduino logic level `LOW`. -/
def LOW : Bool := false
/-- Arduino logic level `HIGH`. -/
def HIGH : Bool := true

/-- `enum driveDir`, as the `bool` the methods take. -/
def DRIVE_DIR_BACKWARD : Bool := false
/-- `enum driveDir`, as the `bool` the methods take. -/
def DRIVE_DIR_FORWARD : Bool := true

/-- `enum driveMoveStatus`. -/
def DRIVE_STATUS_OK : Int := 0
/-- `enum driveMoveStatus`. -/
def DRIVE_STATUS_OVERTIME : Int := 1
/-- `enum driveMoveStatus`. -/
def DRIVE_STATUS_OVERLOAD : Int := 2
/-- `enum driveMoveStatus`. -/
def DRIVE_STATUS_STOPPED : Int := 3
/-- `enum driveMoveStatus`. -/
def DRIVE_STATUS_IN_WORK : Int := 10

end AdvDrive

/-! ## State -/

/-- The private fields of `class AdvDrive`. `_curr` is the pointer to the
external current value: `none` is the null pointer, `some a` an address. -/
structure AdvDrive where
  _pinFrw : Nat
  _pinBkw : Nat
  _pinSwFrw : Nat
  _pinSwBkw : Nat
  _swLevelFrw : Bool
  _swLevelBkw : Bool
  _maxCurr : AdvDrive.CFloat
  _overload_ms : Int
  _curr : Option Nat
  _maxTimeSec : Int
  _dir : Bool
  moveStatus : Int
  f_overCurr : Bool
  tmrStart : Nat
  tmrOverload : Nat

namespace AdvDrive

/-- The object together with the output side of the board: the level driven
on each pin and every `digitalWrite` so far, oldest first. -/
structure Sys where
  drv : AdvDrive
  pin : Nat → Bool
  writes : List (Nat × Bool)

/-- One sample of the outside world: `digitalRead` per pin, the milliseconds
since power-up (not yet reduced to 32 bits), and the floats in memory. -/
structure Env where
  din : Nat → Bool
  ms : Nat
  mem : Nat → CFloat

/-- Arduino `millis()`: the clock as a 32-bit unsigned value. -/
def millis (e : Env) : Nat := e.ms % wrap32

/-- Arduino `digitalRead`. -/
def digitalRead (e : Env) (p : Nat) : Bool := e.din p

/-- Arduino `digitalWrite`. -/
def digitalWrite (s : Sys) (p : Nat) (v : Bool) : Sys :=
  { s with pin := fun q => if q = p then v else s.pin q,
           writes := s.writes ++ [(p, v)] }

/-! ## The methods -/

/-- The constructor (lines 31-48). The two timers have no initialiser; their
start values `t0`, `t1` are arbitrary. `pinMode` is not modelled. -/
def new (pinFrw pinBkw pinSwFrw pinSwBkw : Nat) (swLevelFrw swLevelBkw : Bool)
    (t0 t1 : Nat) : AdvDrive :=
  { _pinFrw := pinFrw, _pinBkw := pinBkw, _pinSwFrw := pinSwFrw, _pinSwBkw := pinSwBkw,
    _swLevelFrw := swLevelFrw, _swLevelBkw := swLevelBkw,
    _maxCurr := .fin 0, _overload_ms := 0, _curr := none,
    _maxTimeSec := 0, _dir := DRIVE_DIR_FORWARD, moveStatus := DRIVE_STATUS_OK,
    f_overCurr := false, tmrStart := t0 % wrap32, tmrOverload := t1 % wrap32 }

/-- `setOverload(curr, maxCurr, time_ms)` (lines 53-57); `time_ms` is a
`uint32_t` stored into an `int`. -/
def setOverload (s : Sys) (curr : Option Nat) (maxCurr : CFloat) (time_ms : Nat) : Sys :=
  { s with drv := { s.drv with _curr := curr, _maxCurr := maxCurr,
                               _overload_ms := toI32 time_ms } }

/-- `offOverload()` (lines 60-62). -/
def offOverload (s : Sys) : Sys :=
  { s with drv := { s.drv with _curr := none } }

/-- `getStatus()` (lines 69-71). -/
def getStatus (s : Sys) : Int := s.drv.moveStatus

/-- `setDir(dir)` (lines 134-136). -/
def setDir (s : Sys) (dir : Bool) : Sys :=
  { s with drv := { s.drv with _dir := dir } }

/-- `setTime(maxTimeSec)` (lines 139-141); the `uint32_t` argument is stored
into an `int`. -/
def setTime (s : Sys) (maxTimeSec : Nat) : Sys :=
  { s with drv := { s.drv with _maxTimeSec := toI32 maxTimeSec } }

/-- `motorOff()` (lines 144-148). -/
def motorOff (s : Sys) : Sys :=
  let s1 := digitalWrite s s.drv._pinFrw LOW
  if s1.drv._pinBkw ≠ NC then digitalWrite s1 s1.drv._pinBkw LOW else s1

/-- `motorOn(dir)` (lines 151-156). -/
def motorOn (s : Sys) (dir : Bool) : Sys :=
  let s1 := motorOff s
  if dir then digitalWrite s1 s1.drv._pinFrw HIGH
  else if s1.drv._pinBkw ≠ NC then digitalWrite s1 s1.drv._pinBkw HIGH
  else s1

/-- `readEndSw(dir)` (lines 161-181): `true` is "switch pressed". -/
def readEndSw (d : AdvDrive) (e : Env) (dir : Bool) : Bool :=
  if dir = DRIVE_DIR_FORWARD then
    if d._pinSwFrw ≠ NC then
      let sw := digitalRead e d._pinSwFrw
      if d._swLevelFrw = HIGH then !sw else sw
    else false
  else
    if d._pinSwBkw ≠ NC then
      let sw := digitalRead e d._pinSwBkw
      if d._swLevelBkw = HIGH then !sw else sw
    else false

/-- `overloadControl()` (lines 186-210): the returned `int` and the object
afterwards. -/
def overloadControl (d : AdvDrive) (e : Env) : Int × AdvDrive :=
  match d._curr with
  | none => (0, d)
  | some a =>
    if d.f_overCurr = false then
      if (e.mem a).gt d._maxCurr then
        (0, { d with tmrOverload := millis e, f_overCurr := true })
      else (0, d)
    else
      if (e.mem a).le d._maxCurr then
        (0, { d with f_overCurr := false })
      else if subU32 (millis e) d.tmrOverload > toU32 (mulInt d._overload_ms 1000) then
        (1, { d with f_overCurr := false })
      else (0, d)

/-- `stop()` (lines 81-83). -/
def stop (s : Sys) : Sys := motorOff s

/-- `start()` (lines 74-78). -/
def start (s : Sys) (e : Env) : Sys :=
  let s1 := motorOn s s.drv._dir
  { s1 with drv := { s1.drv with moveStatus := DRIVE_STATUS_IN_WORK, tmrStart := millis e } }

/-- `run()` (lines 87-108): one poll. -/
def run (s : Sys) (e : Env) : Sys :=
  if readEndSw s.drv e s.drv._dir then
    stop { s with drv := { s.drv with moveStatus := DRIVE_STATUS_OK } }
  else if s.drv._maxTimeSec ≠ 0 ∧
      subU32 (millis e) s.drv.tmrStart > toU32 (mulInt s.drv._maxTimeSec 1000) then
    stop { s with drv := { s.drv with moveStatus := DRIVE_STATUS_OVERTIME } }
  else
    let r := overloadControl s.drv e
    if r.1 ≠ 0 then
      stop { s with drv := { r.2 with moveStatus := DRIVE_STATUS_OVERLOAD } }
    else { s with drv := r.2 }

/-- Successive `run()` calls, one per sample. -/
def runs (s : Sys) : List Env → Sys
  | [] => s
  | e :: es => runs (run s e) es

/-- The loop of `move` (lines 119-120): `run()` while the status is
`DRIVE_STATUS_IN_WORK`; each iteration consumes one sample, and `none` means
the samples ran out with the move still in progress. -/
def moveLoop (s : Sys) : List Env → Option Sys
  | [] => if getStatus s = DRIVE_STATUS_IN_WORK then none else some s
  | e :: es => if getStatus s = DRIVE_STATUS_IN_WORK then moveLoop (run s e) es else some s

/-- The state `move(dir, maxTimeSec)` has reached when it enters its loop
(lines 114-118); `e0` is the sample `start()` sees. -/
def moveStart (s : Sys) (dir : Bool) (maxTimeSec : Int) (e0 : Env) : Sys :=
  let s1 := setDir s dir
  let s2 := if maxTimeSec ≠ 0 then setTime s1 (toU32 maxTimeSec) else s1
  let s3 := { s2 with drv := { s2.drv with moveStatus := DRIVE_STATUS_IN_WORK } }
  start s3 e0

/-- `move(dir, maxTimeSec)` (lines 113-122): the returned status and the state. -/
def move (s : Sys) (dir : Bool) (maxTimeSec : Int) (e0 : Env) (es : List Env) :
    Option (Int × Sys) :=
  (moveLoop (moveStart s dir maxTimeSec e0) es).map fun s1 => (getStatus s1, s1)

/-- `move(dir)` (lines 125-127). -/
def move_dir (s : Sys) (dir : Bool) (e0 : Env) (es : List Env) : Option (Int × Sys) :=
  let _unused := dir
  move s s.drv._dir s.drv._maxTimeSec e0 es

/-- `move()` (lines 129-131). -/
def move_noarg (s : Sys) (e0 : Env) (es : List Env) : Option (Int × Sys) :=
  move s s.drv._dir s.drv._maxTimeSec e0 es

/-! ## Sample data for the closed instances -/

/-- A controller on pins 2 (forward), 3 (backward), switches on 4 and 5, both
resting HIGH, freshly constructed. -/
def drv0 : AdvDrive := new 2 3 4 5 HIGH HIGH 0 0

/-- A board on which every pin is LOW and nothing has been written. -/
def sys0 : Sys := { drv := drv0, pin := fun _ => false, writes := [] }

/-- A sample at clock `t` with every input pin at `lvl` and the current `c`
at every address. -/
def sample (t : Nat) (lvl : Bool) (c : CFloat) : Env :=
  { din := fun _ => lvl, ms := t, mem := fun _ => c }

/-- A state in the middle of a move in which the time ceiling (2 s) is long
exceeded and the overload latch is Suspect since clock 0, both outputs HIGH. -/
def sysC1 : Sys :=
  { drv := { drv0 with _maxTimeSec := 2, _curr := some 0, _maxCurr := .fin 5,
                       _overload_ms := 300, f_overCurr := true, tmrOverload := 0,
                       tmrStart := 0, moveStatus := DRIVE_STATUS_IN_WORK },
    pin := fun _ => true, writes := [] }

/-- The controller of `sys0` with the overload monitor enabled as in the
spec's example (`maxCurr = 5.0`, `time_ms = 300`), started at clock 0. -/
def sysC3 : Sys := start (setOverload sys0 (some 0) (.fin 5) 300) (sample 0 true (.fin 0))

/-- A forward-only controller (`pinBkw = NC`) with a wired backward switch on
pin 5, direction Backward, on a board with every pin HIGH. -/
def sysC8 : Sys :=
  { drv := { new 2 NC 4 5 HIGH HIGH 0 0 with _dir := DRIVE_DIR_BACKWARD },
    pin := fun _ => true, writes := [] }

/-- A sample at clock `t` in which pin `p` reads LOW and every other pin HIGH. -/
def sampleLow (t : Nat) (p : Nat) : Env :=
  { din := fun q => !decide (q = p), ms := t, mem := fun _ => .fin 0 }

/-! ## Bookkeeping for statements about sequences of polls -/

/-- Ghost variable of the overload latch: the sample of the most recent call
in which the latch went from Normal (`f_overCurr = 0`) to Suspect
(`f_overCurr = 1`). `d` is the object before the call at `e`, `d1` after. -/
def latchEntry (d d1 : AdvDrive) (e : Env) (g : Option Env) : Option Env :=
  if d.f_overCurr = false ∧ d1.f_overCurr = true then some e else g

/-- Successive `overloadControl()` calls, one per sample, with the ghost. -/
def ocPolls (d : AdvDrive) (g : Option Env) : List Env → AdvDrive × Option Env
  | [] => (d, g)
  | e :: es => ocPolls (overloadControl d e).2 (latchEntry d (overloadControl d e).2 e g) es

/-- Successive `run()` calls, one per sample, with the ghost. -/
def runPolls (s : Sys) (g : Option Env) : List Env → Sys × Option Env
  | [] => (s, g)
  | e :: es => runPolls (run s e) (latchEntry s.drv (run s e).drv e g) es

/-- The ghost is right: the grace setting is `G`, and whenever the latch is
Suspect its timer holds the clock of the recorded entry. -/
def LatchInv (G : Int) (d : AdvDrive) (g : Option Env) : Prop :=
  d._overload_ms = G ∧
  (d.f_overCurr = true → ∃ e1, g = some e1 ∧ d.tmrOverload = millis e1)

/-- At most one of the two outputs is HIGH. -/
def AtMostOneHigh (s : Sys) : Prop :=
  ¬ (s.pin s.drv._pinFrw = HIGH ∧ s.pin s.drv._pinBkw = HIGH)

/-- A controller with no forward switch (`pinSwFrw = NC`), direction Forward,
a time ceiling of 2 s, on a board with every pin LOW. -/
def sysC16 : Sys :=
  { drv := { new 2 3 NC 5 HIGH HIGH 0 0 with _maxTimeSec := 2 },
    pin := fun _ => false, writes := [] }

/-- A controller in a move with a ceiling of 2 s whose overload latch went
Suspect at clock 4294967000, shortly before the 32-bit clock wraps. -/
def sysC18 : Sys :=
  { drv := { drv0 with _maxTimeSec := 2, _curr := some 0, _maxCurr := .fin 5,
                       _overload_ms := 300, f_overCurr := true, tmrOverload := 4294967000,
                       tmrStart := 4294967000, moveStatus := DRIVE_STATUS_IN_WORK },
    pin := fun _ => false, writes := [] }

/-- A first move with the monitor enabled (`maxCurr = 5.0`, `time_ms = 300`):
started at clock 0, a poll at 5 ms reads 6.0 and makes the latch Suspect, and
a poll at 10 ms finds the forward switch pressed and ends the move with Ok. -/
def sysC20 : Sys :=
  runs (start (setOverload sys0 (some 0) (.fin 5) 300) (sample 0 true (.fin 0)))
    [sample 5 true (.fin 6), sample 10 false (.fin 6)]

/-- The same first move with a ceiling of 2 s and a switch that is never
pressed: the poll at 2001 ms ends it with Overtime. -/
def sysC20t : Sys :=
  runs (start (setTime (setOverload sys0 (some 0) (.fin 5) 300) 2) (sample 0 true (.fin 0)))
    [sample 5 true (.fin 6), sample 2001 true (.fin 6)]

/-- Clock 4294967000, 296 ms before the 32-bit `millis()` wraps; every input
pin HIGH, current 6.0. -/
def clkStart : Env := sample 4294967000 true (.fin 6)

/-- The poll 796 ms after `clkStart`, where `millis()` has wrapped to 500. -/
def clk796 : Env := sample 4294967796 true (.fin 6)

/-- The poll 2001 ms after `clkStart`. -/
def clk2001 : Env := sample 4294969001 true (.fin 6)

/-- The poll 300 001 ms after `clkStart`. -/
def clk300001 : Env := sample 4295267001 true (.fin 6)

/-! # Theorems -/

/-! ## Arithmetic of the 32-bit clock -/

theorem subU32_millis (now stamp : Env) :
    ((subU32 (millis now) (millis stamp) : Nat) : Int)
      = ((now.ms : Int) - (stamp.ms : Int)) % 4294967296 := by
  simp only [subU32, millis, wrap32]
  omega

theorem toU32_toI32 (n : Nat) : toU32 (toI32 n) = n % wrap32 := by
  unfold toU32 toI32 wrap32
  split <;> omega

theorem toU32_mulInt (a b : Int) : toU32 (mulInt a b) = toU32 (a * b) := by
  rw [mulInt, toU32_toI32]
  unfold toU32 wrap32
  omega

theorem toU32_of_range (i : Int) (h0 : 0 ≤ i) (h1 : i ≤ 2147483647) :
    ((toU32 i : Nat) : Int) = i := by
  unfold toU32
  omega

theorem toI32_of_range (n : Nat) (h : n ≤ 2147483647) : toI32 n = (n : Int) := by
  unfold toI32 wrap32
  split <;> omega

/-! ## The outputs after `motorOff` -/

theorem motorOff_drv (s : Sys) : (motorOff s).drv = s.drv := by
  unfold motorOff digitalWrite
  dsimp only
  split <;> rfl

theorem motorOff_pin_frw (s : Sys) : (motorOff s).pin s.drv._pinFrw = false := by
  unfold motorOff digitalWrite
  dsimp only
  split <;> simp [LOW]

theorem motorOff_pin_bkw (s : Sys) (h : s.drv._pinBkw ≠ NC) :
    (motorOff s).pin s.drv._pinBkw = false := by
  unfold motorOff digitalWrite
  dsimp only
  rw [if_pos h]
  simp [LOW]

theorem motorOff_writes (s : Sys) :
    (motorOff s).writes = s.writes ++ (s.drv._pinFrw, LOW) ::
      (if s.drv._pinBkw ≠ NC then [(s.drv._pinBkw, LOW)] else []) := by
  unfold motorOff digitalWrite
  dsimp only
  split <;> simp

/-! ## Polls that change nothing -/

theorem overloadControl_off (d : AdvDrive) (e : Env) (h : d._curr = none) :
    overloadControl d e = (0, d) := by
  unfold overloadControl
  rw [h]

theorem run_idle (s : Sys) (e : Env)
    (hsw : readEndSw s.drv e s.drv._dir = false)
    (ht : ¬ (s.drv._maxTimeSec ≠ 0 ∧
      subU32 (millis e) s.drv.tmrStart > toU32 (mulInt s.drv._maxTimeSec 1000)))
    (hoff : s.drv._curr = none) : run s e = s := by
  unfold run
  rw [hsw, if_neg ht, overloadControl_off _ _ hoff]
  simp

theorem runs_idle (s : Sys) (es : List Env) (h : ∀ x, x ∈ es → run s x = s) :
    runs s es = s := by
  induction es with
  | nil => rfl
  | cons x xs ih =>
    rw [runs, h x (List.mem_cons_self x xs)]
    exact ih fun y hy => h y (List.mem_cons_of_mem x hy)

theorem runs_append (s : Sys) (es fs : List Env) :
    runs s (es ++ fs) = runs (runs s es) fs := by
  induction es generalizing s with
  | nil => rfl
  | cons x xs ih => exact ih (run s x)

theorem readEndSw_congr (d d1 : AdvDrive) (e : Env) (dir : Bool)
    (h1 : d1._pinSwFrw = d._pinSwFrw) (h2 : d1._pinSwBkw = d._pinSwBkw)
    (h3 : d1._swLevelFrw = d._swLevelFrw) (h4 : d1._swLevelBkw = d._swLevelBkw) :
    readEndSw d1 e dir = readEndSw d e dir := by
  unfold readEndSw
  rw [h1, h2, h3, h4]

/-! ## C1 -/

/-- C1: when `readEndSw` of the current direction reads pressed at a `run()`
call, the status afterwards is Ok (0), the forward output is LOW and the
backward output, if there is one, is LOW; nothing is assumed about the time
ceiling or the overload latch. -/
theorem C1_limit_wins (s : Sys) (e : Env)
    (h : readEndSw s.drv e s.drv._dir = true) :
    (run s e).drv.moveStatus = DRIVE_STATUS_OK ∧
    (run s e).pin s.drv._pinFrw = LOW ∧
    (s.drv._pinBkw ≠ NC → (run s e).pin s.drv._pinBkw = LOW) := by
  unfold run
  rw [h, if_pos rfl]
  refine ⟨?_, ?_, ?_⟩
  · simp [stop, motorOff_drv]
  · exact motorOff_pin_frw { s with drv := { s.drv with moveStatus := DRIVE_STATUS_OK } }
  · intro hb
    exact motorOff_pin_bkw { s with drv := { s.drv with moveStatus := DRIVE_STATUS_OK } } hb

/-- C1 at a poll where the switch is pressed, the time ceiling is exceeded and
the overload latch would fire. -/
theorem C1_limit_wins_witness :
    readEndSw sysC1.drv (sample 1000000 false (.fin 6)) sysC1.drv._dir = true ∧
    (sysC1.drv._maxTimeSec ≠ 0 ∧ subU32 (millis (sample 1000000 false (.fin 6)))
        sysC1.drv.tmrStart > toU32 (mulInt sysC1.drv._maxTimeSec 1000)) ∧
    (overloadControl sysC1.drv (sample 1000000 false (.fin 6))).1 = 1 ∧
    sysC1.pin 2 = HIGH ∧ sysC1.pin 3 = HIGH ∧
    (run sysC1 (sample 1000000 false (.fin 6))).drv.moveStatus = DRIVE_STATUS_OK ∧
    (run sysC1 (sample 1000000 false (.fin 6))).pin sysC1.drv._pinFrw = LOW ∧
    (sysC1.drv._pinBkw ≠ NC →
      (run sysC1 (sample 1000000 false (.fin 6))).pin sysC1.drv._pinBkw = LOW) :=
  ⟨by decide, by decide, by decide, by decide, by decide,
    C1_limit_wins sysC1 (sample 1000000 false (.fin 6)) (by decide)⟩

/-! ## What the output methods leave alone -/

theorem digitalWrite_drv (s : Sys) (p : Nat) (v : Bool) : (digitalWrite s p v).drv = s.drv := rfl

theorem motorOn_drv (s : Sys) (dir : Bool) : (motorOn s dir).drv = s.drv := by
  unfold motorOn
  dsimp only
  split
  · rw [digitalWrite_drv, motorOff_drv]
  · split
    · rw [digitalWrite_drv, motorOff_drv]
    · rw [motorOff_drv]

theorem stop_drv (s : Sys) : (stop s).drv = s.drv := motorOff_drv s

theorem start_drv (s : Sys) (e : Env) :
    (start s e).drv
      = { s.drv with moveStatus := DRIVE_STATUS_IN_WORK, tmrStart := millis e } := by
  unfold start
  dsimp only
  rw [motorOn_drv]

/-! ## C2 -/

/-- C2: with the time ceiling set to `T` seconds (`1 ≤ T`, `T * 1000` an
`int`), the overload monitor off and a limit switch that never reads pressed,
after `start()` at clock `s` every `run()` at a clock `t` with
`(t - s) mod 2^32 ≤ T * 1000` leaves the status InProgress (10), and the first
`run()` with `(t - s) mod 2^32 > T * 1000` sets Overtime (1) and drives both
outputs LOW. -/
theorem C2_timeout (s : Sys) (T : Nat) (e0 : Env) (es : List Env) (e : Env)
    (hT : 1 ≤ T) (hR : T * 1000 ≤ 2147483647)
    (hsw : ∀ x, x ∈ es ++ [e] → readEndSw s.drv x s.drv._dir = false)
    (hbefore : ∀ x, x ∈ es → ((x.ms : Int) - (e0.ms : Int)) % 4294967296 ≤ (T : Int) * 1000)
    (hafter : ((e.ms : Int) - (e0.ms : Int)) % 4294967296 > (T : Int) * 1000) :
    (∀ k, (runs (start (offOverload (setTime s T)) e0) (es.take k)).drv.moveStatus
        = DRIVE_STATUS_IN_WORK) ∧
    (runs (start (offOverload (setTime s T)) e0) (es ++ [e])).drv.moveStatus
        = DRIVE_STATUS_OVERTIME ∧
    (runs (start (offOverload (setTime s T)) e0) (es ++ [e])).pin s.drv._pinFrw = LOW ∧
    (s.drv._pinBkw ≠ NC →
      (runs (start (offOverload (setTime s T)) e0) (es ++ [e])).pin s.drv._pinBkw = LOW) := by
  have hTi : toI32 T = (T : Int) := toI32_of_range T (by omega)
  have hd : (start (offOverload (setTime s T)) e0).drv
      = { s.drv with _maxTimeSec := (T : Int), _curr := none,
                     moveStatus := DRIVE_STATUS_IN_WORK, tmrStart := millis e0 } := by
    rw [start_drv]
    simp [offOverload, setTime, hTi]
  generalize hs1 : start (offOverload (setTime s T)) e0 = s1 at hd ⊢
  have hthr : ((toU32 (mulInt s1.drv._maxTimeSec 1000) : Nat) : Int) = (T : Int) * 1000 := by
    rw [toU32_mulInt, hd]
    exact toU32_of_range _ (by positivity) (by dsimp only; omega)
  have hel : ∀ x : Env, ((subU32 (millis x) s1.drv.tmrStart : Nat) : Int)
      = ((x.ms : Int) - (e0.ms : Int)) % 4294967296 := by
    intro x
    rw [hd]
    exact subU32_millis x e0
  have hswitch : ∀ x, x ∈ es ++ [e] → readEndSw s1.drv x s1.drv._dir = false := by
    intro x hx
    rw [hd]
    exact hsw x hx
  have hidle : ∀ x, x ∈ es → run s1 x = s1 := by
    intro x hx
    apply run_idle s1 x (hswitch x (List.mem_append_left _ hx))
    · rintro ⟨-, hgt⟩
      have h1 := hbefore x hx
      have h2 := hel x
      omega
    · rw [hd]
  have hst : s1.drv.moveStatus = DRIVE_STATUS_IN_WORK := by rw [hd]
  have hfin : runs s1 (es ++ [e])
      = stop { s1 with drv := { s1.drv with moveStatus := DRIVE_STATUS_OVERTIME } } := by
    rw [runs_append, runs_idle s1 es hidle]
    show run s1 e = _
    unfold run
    rw [hswitch e (by simp)]
    have hgt : subU32 (millis e) s1.drv.tmrStart > toU32 (mulInt s1.drv._maxTimeSec 1000) := by
      have h2 := hel e
      omega
    have hnz : s1.drv._maxTimeSec ≠ 0 := by
      rw [hd]
      dsimp only
      omega
    rw [if_neg (by simp), if_pos ⟨hnz, hgt⟩]
  have hpf : s1.drv._pinFrw = s.drv._pinFrw := by rw [hd]
  have hpb : s1.drv._pinBkw = s.drv._pinBkw := by rw [hd]
  refine ⟨?_, ?_, ?_, ?_⟩
  · intro k
    rw [runs_idle s1 (es.take k) fun x hx => hidle x (List.mem_of_mem_take hx)]
    exact hst
  · rw [hfin, stop_drv]
  · rw [hfin, ← hpf]
    exact motorOff_pin_frw { s1 with drv := { s1.drv with moveStatus := DRIVE_STATUS_OVERTIME } }
  · intro hb
    rw [hfin, ← hpb]
    exact motorOff_pin_bkw { s1 with drv := { s1.drv with moveStatus := DRIVE_STATUS_OVERTIME } }
      (by rw [hpb]; exact hb)

/-- C2 at `T = 2`: polls 0, 1000 and 2000 ms after the start leave InProgress,
the poll at 2001 ms sets Overtime. -/
theorem C2_timeout_witness :
    (∀ k, (runs (start (offOverload (setTime sys0 2)) (sample 500 true (.fin 0)))
        ([sample 500 true (.fin 0), sample 1500 true (.fin 0),
          sample 2500 true (.fin 0)].take k)).drv.moveStatus = DRIVE_STATUS_IN_WORK) ∧
    (runs (start (offOverload (setTime sys0 2)) (sample 500 true (.fin 0)))
        ([sample 500 true (.fin 0), sample 1500 true (.fin 0),
          sample 2500 true (.fin 0)] ++ [sample 2501 true (.fin 0)])).drv.moveStatus
        = DRIVE_STATUS_OVERTIME ∧
    (runs (start (offOverload (setTime sys0 2)) (sample 500 true (.fin 0)))
        ([sample 500 true (.fin 0), sample 1500 true (.fin 0),
          sample 2500 true (.fin 0)] ++ [sample 2501 true (.fin 0)])).pin sys0.drv._pinFrw
        = LOW ∧
    (sys0.drv._pinBkw ≠ NC →
      (runs (start (offOverload (setTime sys0 2)) (sample 500 true (.fin 0)))
        ([sample 500 true (.fin 0), sample 1500 true (.fin 0),
          sample 2500 true (.fin 0)] ++ [sample 2501 true (.fin 0)])).pin sys0.drv._pinBkw
        = LOW) :=
  C2_timeout sys0 2 (sample 500 true (.fin 0))
    [sample 500 true (.fin 0), sample 1500 true (.fin 0), sample 2500 true (.fin 0)]
    (sample 2501 true (.fin 0)) (by decide) (by decide)
    (by intro x hx; simp at hx; rcases hx with h | h | h | h <;> subst h <;> decide)
    (by intro x hx; simp at hx; rcases hx with h | h | h <;> subst h <;> decide)
    (by decide)

/-! ## C3 -/

/-- C3, the code at the spec's example (`maxCurr = 5.0`, `time_ms = 300`,
reading 6.0 at every poll, first seen above at clock 0, no limit switch
pressed, no time ceiling): the polls 300 ms and 301 ms after the first one
leave the status InProgress (10), so does the poll at 300 000 ms, and the
status becomes Overload (2) at the poll at 300 001 ms: the threshold the code
compares the elapsed milliseconds with is `_overload_ms * 1000`. -/
theorem C3_grace_scaled_by_1000 :
    sysC3.drv._overload_ms = 300 ∧
    (runs sysC3 [sample 0 true (.fin 6)]).drv.f_overCurr = true ∧
    (runs sysC3 [sample 0 true (.fin 6), sample 300 true (.fin 6)]).drv.moveStatus
      = DRIVE_STATUS_IN_WORK ∧
    (runs sysC3 [sample 0 true (.fin 6), sample 300 true (.fin 6),
      sample 301 true (.fin 6)]).drv.moveStatus = DRIVE_STATUS_IN_WORK ∧
    (runs sysC3 [sample 0 true (.fin 6), sample 300 true (.fin 6),
      sample 301 true (.fin 6), sample 300000 true (.fin 6)]).drv.moveStatus
      = DRIVE_STATUS_IN_WORK ∧
    (runs sysC3 [sample 0 true (.fin 6), sample 300 true (.fin 6),
      sample 301 true (.fin 6), sample 300000 true (.fin 6),
      sample 300001 true (.fin 6)]).drv.moveStatus = DRIVE_STATUS_OVERLOAD := by
  decide

/-! ## The overload latch over a sequence of polls -/

theorem overloadControl_report (d : AdvDrive) (e : Env) (h : (overloadControl d e).1 ≠ 0) :
    d.f_overCurr = true ∧
    subU32 (millis e) d.tmrOverload > toU32 (mulInt d._overload_ms 1000) ∧
    (overloadControl d e).1 = 1 ∧ (overloadControl d e).2.f_overCurr = false := by
  unfold overloadControl at h ⊢
  cases hc : d._curr with
  | none => simp [hc] at h
  | some a =>
    simp only [hc] at h ⊢
    by_cases hf : d.f_overCurr = false
    · rw [if_pos hf] at h
      split at h <;> simp at h
    · rw [if_neg hf] at h ⊢
      by_cases hle : (e.mem a).le d._maxCurr = true
      · rw [if_pos hle] at h
        simp at h
      · rw [if_neg hle] at h ⊢
        by_cases hgt : subU32 (millis e) d.tmrOverload > toU32 (mulInt d._overload_ms 1000)
        · rw [if_pos hgt]
          simp at hf
          exact ⟨hf, hgt, rfl, rfl⟩
        · rw [if_neg hgt] at h
          simp at h

/-- `overloadControl()` writes no field but `f_overCurr` and `tmrOverload`. -/
theorem overloadControl_frame (d : AdvDrive) (e : Env) :
    (overloadControl d e).2
      = { d with f_overCurr := (overloadControl d e).2.f_overCurr,
                 tmrOverload := (overloadControl d e).2.tmrOverload } := by
  unfold overloadControl
  split
  · rfl
  · split <;> split <;> try rfl
    split <;> rfl

theorem overloadControl_grace (d : AdvDrive) (e : Env) :
    (overloadControl d e).2._overload_ms = d._overload_ms := by
  rw [overloadControl_frame]

theorem overloadControl_status (d : AdvDrive) (e : Env) :
    (overloadControl d e).2.moveStatus = d.moveStatus := by
  rw [overloadControl_frame]

theorem overloadControl_entry (d : AdvDrive) (e : Env)
    (h : (overloadControl d e).2.f_overCurr = true) :
    (d.f_overCurr = false ∧ (overloadControl d e).2.tmrOverload = millis e) ∨
    (d.f_overCurr = true ∧ (overloadControl d e).2.tmrOverload = d.tmrOverload) := by
  unfold overloadControl at h ⊢
  cases hc : d._curr with
  | none =>
    simp only [hc] at h ⊢
    exact Or.inr ⟨h, trivial⟩
  | some a =>
    simp only [hc] at h ⊢
    by_cases hf : d.f_overCurr = false
    · rw [if_pos hf] at h ⊢
      split at h
      · rename_i hg
        rw [if_pos hg]
        exact Or.inl ⟨hf, rfl⟩
      · rw [hf] at h
        simp at h
    · rw [if_neg hf] at h ⊢
      simp at hf
      split at h
      · simp at h
      · rename_i hle
        rw [if_neg hle]
        split at h
        · simp at h
        · rename_i hgt
          rw [if_neg hgt]
          exact Or.inr ⟨hf, rfl⟩

theorem latchInv_step (G : Int) (d : AdvDrive) (g : Option Env) (e : Env)
    (h : LatchInv G d g) :
    LatchInv G (overloadControl d e).2 (latchEntry d (overloadControl d e).2 e g) := by
  refine ⟨by rw [overloadControl_grace]; exact h.1, ?_⟩
  intro hf
  unfold latchEntry
  rcases overloadControl_entry d e hf with ⟨h0, ht⟩ | ⟨h1, ht⟩
  · rw [if_pos ⟨h0, hf⟩]
    exact ⟨e, rfl, ht⟩
  · rw [if_neg (by simp [h1]), ht]
    exact h.2 h1

theorem latchInv_congr (G : Int) (d d1 : AdvDrive) (g : Option Env) (h : LatchInv G d g)
    (h1 : d1._overload_ms = d._overload_ms) (h2 : d1.f_overCurr = d.f_overCurr)
    (h3 : d1.tmrOverload = d.tmrOverload) : LatchInv G d1 g := by
  unfold LatchInv at h ⊢
  rw [h1, h2, h3]
  exact h

theorem latchEntry_same (d d1 : AdvDrive) (e : Env) (g : Option Env)
    (h : d1.f_overCurr = d.f_overCurr) : latchEntry d d1 e g = g := by
  unfold latchEntry
  rw [h]
  cases d.f_overCurr <;> simp

theorem ocPolls_inv (G : Int) (es : List Env) (d : AdvDrive) (g : Option Env)
    (h : LatchInv G d g) : LatchInv G (ocPolls d g es).1 (ocPolls d g es).2 := by
  induction es generalizing d g with
  | nil => exact h
  | cons x xs ih => exact ih _ _ (latchInv_step G d g x h)

/-- The object after `run()` either has the latch of the object before, or
the latch `overloadControl()` leaves. -/
theorem run_latch (s : Sys) (e : Env) :
    ((run s e).drv._overload_ms = s.drv._overload_ms ∧
      (run s e).drv.f_overCurr = s.drv.f_overCurr ∧
      (run s e).drv.tmrOverload = s.drv.tmrOverload) ∨
    ((run s e).drv._overload_ms = (overloadControl s.drv e).2._overload_ms ∧
      (run s e).drv.f_overCurr = (overloadControl s.drv e).2.f_overCurr ∧
      (run s e).drv.tmrOverload = (overloadControl s.drv e).2.tmrOverload) := by
  unfold run
  split
  · left
    rw [stop_drv]
    exact ⟨rfl, rfl, rfl⟩
  · split
    · left
      rw [stop_drv]
      exact ⟨rfl, rfl, rfl⟩
    · right
      dsimp only
      split
      · rw [stop_drv]
        exact ⟨rfl, rfl, rfl⟩
      · exact ⟨rfl, rfl, rfl⟩

theorem run_latchInv (G : Int) (s : Sys) (g : Option Env) (e : Env)
    (h : LatchInv G s.drv g) :
    LatchInv G (run s e).drv (latchEntry s.drv (run s e).drv e g) := by
  rcases run_latch s e with ⟨h1, h2, h3⟩ | ⟨h1, h2, h3⟩
  · rw [latchEntry_same _ _ _ _ h2]
    exact latchInv_congr G s.drv _ g h h1 h2 h3
  · have hstep := latchInv_step G s.drv g e h
    have hg : latchEntry s.drv (run s e).drv e g
        = latchEntry s.drv (overloadControl s.drv e).2 e g := by
      unfold latchEntry
      rw [h2]
    rw [hg]
    exact latchInv_congr G _ _ _ hstep h1 h2 h3

theorem runPolls_inv (G : Int) (es : List Env) (s : Sys) (g : Option Env)
    (h : LatchInv G s.drv g) : LatchInv G (runPolls s g es).1.drv (runPolls s g es).2 := by
  induction es generalizing s g with
  | nil => exact h
  | cons x xs ih => exact ih _ _ (run_latchInv G s g x h)

/-- A `run()` that turns the status into Overload went through a reporting
`overloadControl()`. -/
theorem run_sets_overload (s : Sys) (e : Env)
    (h0 : s.drv.moveStatus ≠ DRIVE_STATUS_OVERLOAD)
    (h1 : (run s e).drv.moveStatus = DRIVE_STATUS_OVERLOAD) :
    (overloadControl s.drv e).1 ≠ 0 := by
  intro hz
  unfold run at h1
  split at h1
  · rw [stop_drv] at h1
    simp [DRIVE_STATUS_OK, DRIVE_STATUS_OVERLOAD] at h1
  · split at h1
    · rw [stop_drv] at h1
      simp [DRIVE_STATUS_OVERTIME, DRIVE_STATUS_OVERLOAD] at h1
    · dsimp only at h1
      rw [if_neg (by simpa using hz)] at h1
      dsimp only at h1
      rw [overloadControl_status] at h1
      exact h0 h1

/-! ## C4 -/

/-- C4: with the overload monitor enabled with grace period `graceMs`
(`graceMs * 1000` an `int`) and the latch Normal at first, over every sequence
of polls: when an `overloadControl()` call reports overload, or a `run()` call
turns the status into Overload, the latch went from Normal to Suspect at an
earlier poll, and at least `graceMs` milliseconds have elapsed since the most
recent such poll, both on the 32-bit clock and, for a clock that has not run
backwards, in true time. No report comes at a poll fewer than `graceMs`
milliseconds after it. -/
theorem C4_no_early_overload (s : Sys) (a : Nat) (maxCurr : CFloat) (graceMs : Nat)
    (es : List Env) (e : Env)
    (hR : graceMs * 1000 ≤ 2147483647) (hN : s.drv.f_overCurr = false) :
    ((overloadControl (ocPolls (setOverload s (some a) maxCurr graceMs).drv none es).1 e).1 ≠ 0 →
      ∃ e1, (ocPolls (setOverload s (some a) maxCurr graceMs).drv none es).2 = some e1 ∧
        (graceMs : Int) ≤ ((e.ms : Int) - (e1.ms : Int)) % 4294967296 ∧
        (e1.ms ≤ e.ms → graceMs ≤ e.ms - e1.ms)) ∧
    ((runPolls (setOverload s (some a) maxCurr graceMs) none es).1.drv.moveStatus
        ≠ DRIVE_STATUS_OVERLOAD →
      (run (runPolls (setOverload s (some a) maxCurr graceMs) none es).1 e).drv.moveStatus
        = DRIVE_STATUS_OVERLOAD →
      ∃ e1, (runPolls (setOverload s (some a) maxCurr graceMs) none es).2 = some e1 ∧
        (graceMs : Int) ≤ ((e.ms : Int) - (e1.ms : Int)) % 4294967296 ∧
        (e1.ms ≤ e.ms → graceMs ≤ e.ms - e1.ms)) := by
  have h0 : LatchInv (graceMs : Int) (setOverload s (some a) maxCurr graceMs).drv none := by
    refine ⟨toI32_of_range graceMs (by omega), ?_⟩
    intro hf
    have : s.drv.f_overCurr = true := hf
    rw [hN] at this
    exact absurd this (by decide)
  have key : ∀ (d : AdvDrive) (g : Option Env), LatchInv (graceMs : Int) d g →
      (overloadControl d e).1 ≠ 0 →
      ∃ e1, g = some e1 ∧
        (graceMs : Int) ≤ ((e.ms : Int) - (e1.ms : Int)) % 4294967296 ∧
        (e1.ms ≤ e.ms → graceMs ≤ e.ms - e1.ms) := by
    intro d g hinv hrep
    obtain ⟨hf, hgt, -, -⟩ := overloadControl_report d e hrep
    obtain ⟨e1, hg, ht⟩ := hinv.2 hf
    have hthr : ((toU32 (mulInt d._overload_ms 1000) : Nat) : Int) = (graceMs : Int) * 1000 := by
      rw [toU32_mulInt, hinv.1]
      exact toU32_of_range _ (by positivity) (by omega)
    have hel := subU32_millis e e1
    rw [ht] at hgt
    refine ⟨e1, hg, by omega, ?_⟩
    intro hmono
    omega
  refine ⟨?_, ?_⟩
  · exact key _ _ (ocPolls_inv _ es _ _ h0)
  · intro hb ha
    exact key _ _ (runPolls_inv _ es _ _ h0) (run_sets_overload _ e hb ha)

/-- C4 at the spec's example: the reading 6.0 is first seen at clock 0, and
the report at clock 300 001 is 300 ms or more after it. -/
theorem C4_no_early_overload_witness :
    (overloadControl (ocPolls (setOverload sysC3 (some 0) (.fin 5) 300).drv none
        [sample 0 true (.fin 6), sample 300 true (.fin 6)]).1
        (sample 300001 true (.fin 6))).1 ≠ 0 ∧
    (run (runPolls (setOverload sysC3 (some 0) (.fin 5) 300) none
        [sample 0 true (.fin 6), sample 300 true (.fin 6)]).1
        (sample 300001 true (.fin 6))).drv.moveStatus = DRIVE_STATUS_OVERLOAD ∧
    (∃ e1, (ocPolls (setOverload sysC3 (some 0) (.fin 5) 300).drv none
        [sample 0 true (.fin 6), sample 300 true (.fin 6)]).2 = some e1 ∧
        ((300 : Nat) : Int) ≤ (((sample 300001 true (.fin 6)).ms : Int) - (e1.ms : Int))
          % 4294967296 ∧
        (e1.ms ≤ (sample 300001 true (.fin 6)).ms →
          300 ≤ (sample 300001 true (.fin 6)).ms - e1.ms)) ∧
    (∃ e1, (runPolls (setOverload sysC3 (some 0) (.fin 5) 300) none
        [sample 0 true (.fin 6), sample 300 true (.fin 6)]).2 = some e1 ∧
        ((300 : Nat) : Int) ≤ (((sample 300001 true (.fin 6)).ms : Int) - (e1.ms : Int))
          % 4294967296 ∧
        (e1.ms ≤ (sample 300001 true (.fin 6)).ms →
          300 ≤ (sample 300001 true (.fin 6)).ms - e1.ms)) :=
  ⟨by decide, by decide,
    (C4_no_early_overload sysC3 0 (.fin 5) 300
      [sample 0 true (.fin 6), sample 300 true (.fin 6)] (sample 300001 true (.fin 6))
      (by decide) (by decide)).1 (by decide),
    (C4_no_early_overload sysC3 0 (.fin 5) 300
      [sample 0 true (.fin 6), sample 300 true (.fin 6)] (sample 300001 true (.fin 6))
      (by decide) (by decide)).2 (by decide) (by decide)⟩

/-! ## C5 -/

/-- A reporting call read a current that is not at or below `_maxCurr`. -/
theorem overloadControl_report_reading (d : AdvDrive) (e : Env) (a : Nat)
    (hc : d._curr = some a) (h : (overloadControl d e).1 ≠ 0) :
    (e.mem a).le d._maxCurr = false := by
  unfold overloadControl at h
  simp only [hc] at h
  split at h
  · split at h <;> simp at h
  · split at h
    · simp at h
    · rename_i hle
      simpa using hle

/-- `run()` writes no field of the object but `moveStatus`, `f_overCurr` and
`tmrOverload`. -/
theorem run_frame (s : Sys) (e : Env) :
    (run s e).drv
      = { s.drv with moveStatus := (run s e).drv.moveStatus,
                     f_overCurr := (run s e).drv.f_overCurr,
                     tmrOverload := (run s e).drv.tmrOverload } := by
  unfold run
  split
  · rw [stop_drv]
  · split
    · rw [stop_drv]
    · dsimp only
      split
      · rw [stop_drv]
        dsimp only
        conv_lhs => rw [overloadControl_frame]
      · dsimp only
        conv_lhs => rw [overloadControl_frame]
        rw [overloadControl_status]

/-- C6: for each direction whose switch pin is wired, `readEndSw` returns
pressed exactly when the raw pin level differs from the not-pressed level
configured for that direction: resting HIGH, raw HIGH is not-pressed and raw
LOW is pressed; resting LOW, raw LOW is not-pressed and raw HIGH is pressed.
Neither half assumes anything about the other direction's pin or level. -/
theorem C6_switch_polarity (d : AdvDrive) (e : Env) :
    (d._pinSwFrw ≠ NC →
      (readEndSw d e DRIVE_DIR_FORWARD = true ↔ digitalRead e d._pinSwFrw ≠ d._swLevelFrw)) ∧
    (d._pinSwBkw ≠ NC →
      (readEndSw d e DRIVE_DIR_BACKWARD = true ↔ digitalRead e d._pinSwBkw ≠ d._swLevelBkw)) := by
  unfold readEndSw
  constructor
  · intro hw
    rw [if_pos rfl, if_pos hw]
    cases digitalRead e d._pinSwFrw <;> cases d._swLevelFrw <;> simp [HIGH]
  · intro hw
    rw [if_neg (by decide), if_pos hw]
    cases digitalRead e d._pinSwBkw <;> cases d._swLevelBkw <;> simp [HIGH]

/-- C6 on a controller whose forward switch (pin 4) rests HIGH and whose
backward switch (pin 5) rests LOW: raw HIGH reads not-pressed forward and
pressed backward, raw LOW reads pressed forward and not-pressed backward. -/
theorem C6_switch_polarity_witness :
    readEndSw (new 2 3 4 5 HIGH LOW 0 0) (sample 0 HIGH (.fin 0)) DRIVE_DIR_FORWARD = false ∧
    readEndSw (new 2 3 4 5 HIGH LOW 0 0) (sample 0 LOW (.fin 0)) DRIVE_DIR_FORWARD = true ∧
    readEndSw (new 2 3 4 5 HIGH LOW 0 0) (sample 0 LOW (.fin 0)) DRIVE_DIR_BACKWARD = false ∧
    readEndSw (new 2 3 4 5 HIGH LOW 0 0) (sample 0 HIGH (.fin 0)) DRIVE_DIR_BACKWARD = true ∧
    (readEndSw (new 2 3 4 5 HIGH LOW 0 0) (sample 0 LOW (.fin 0)) DRIVE_DIR_FORWARD = true ↔
      digitalRead (sample 0 LOW (.fin 0)) (new 2 3 4 5 HIGH LOW 0 0)._pinSwFrw
        ≠ (new 2 3 4 5 HIGH LOW 0 0)._swLevelFrw) ∧
    (readEndSw (new 2 3 4 5 HIGH LOW 0 0) (sample 0 LOW (.fin 0)) DRIVE_DIR_BACKWARD = true ↔
      digitalRead (sample 0 LOW (.fin 0)) (new 2 3 4 5 HIGH LOW 0 0)._pinSwBkw
        ≠ (new 2 3 4 5 HIGH LOW 0 0)._swLevelBkw) :=
  ⟨by decide, by decide, by decide, by decide,
    (C6_switch_polarity (new 2 3 4 5 HIGH LOW 0 0) (sample 0 LOW (.fin 0))).1 (by decide),
    (C6_switch_polarity (new 2 3 4 5 HIGH LOW 0 0) (sample 0 LOW (.fin 0))).2 (by decide)⟩

/-! ## C7 -/

theorem motorOn_pin_frw (s : Sys) (dir : Bool) (hd : s.drv._pinFrw ≠ s.drv._pinBkw)
    (hb : s.drv._pinBkw ≠ NC) : (motorOn s dir).pin s.drv._pinFrw = dir := by
  unfold motorOn motorOff digitalWrite
  cases dir <;> simp [hb, hd, LOW, HIGH]

theorem motorOn_pin_bkw (s : Sys) (dir : Bool) (hd : s.drv._pinFrw ≠ s.drv._pinBkw)
    (hb : s.drv._pinBkw ≠ NC) : (motorOn s dir).pin s.drv._pinBkw = !dir := by
  unfold motorOn motorOff digitalWrite
  cases dir <;> simp [hb, Ne.symm hd, LOW, HIGH]

theorem motorOn_writes (s : Sys) (dir : Bool) (hb : s.drv._pinBkw ≠ NC) :
    (motorOn s dir).writes = s.writes ++
      [(s.drv._pinFrw, LOW), (s.drv._pinBkw, LOW),
        (if dir then s.drv._pinFrw else s.drv._pinBkw, HIGH)] := by
  unfold motorOn motorOff digitalWrite
  cases dir <;> simp [hb]

theorem start_pin (s : Sys) (e : Env) : (start s e).pin = (motorOn s s.drv._dir).pin := rfl

theorem atMostOneHigh_of_frw_low (s : Sys) (h : s.pin s.drv._pinFrw = LOW) :
    AtMostOneHigh s := by
  intro hboth
  rw [h] at hboth
  exact absurd hboth.1 (by decide)

theorem run_atMostOneHigh (s : Sys) (e : Env) (h : AtMostOneHigh s) :
    AtMostOneHigh (run s e) := by
  unfold run
  split
  · apply atMostOneHigh_of_frw_low
    rw [stop_drv]
    exact motorOff_pin_frw _
  · split
    · apply atMostOneHigh_of_frw_low
      rw [stop_drv]
      exact motorOff_pin_frw _
    · dsimp only
      split
      · apply atMostOneHigh_of_frw_low
        rw [stop_drv]
        exact motorOff_pin_frw _
      · unfold AtMostOneHigh at h ⊢
        dsimp only
        have hfr := overloadControl_frame s.drv e
        have h1 : (overloadControl s.drv e).2._pinFrw = s.drv._pinFrw := by rw [hfr]
        have h2 : (overloadControl s.drv e).2._pinBkw = s.drv._pinBkw := by rw [hfr]
        rw [h1, h2]
        exact h

theorem runs_atMostOneHigh (es : List Env) :
    ∀ s : Sys, AtMostOneHigh s → AtMostOneHigh (runs s es) := by
  induction es with
  | nil => intro s h; exact h
  | cons x xs ih => intro s h; exact ih _ (run_atMostOneHigh s x h)

theorem moveLoop_atMostOneHigh (es : List Env) :
    ∀ s r : Sys, AtMostOneHigh s → moveLoop s es = some r → AtMostOneHigh r := by
  induction es with
  | nil =>
    intro s r h hr
    unfold moveLoop at hr
    split at hr
    · exact absurd hr (by simp)
    · cases hr
      exact h
  | cons x xs ih =>
    intro s r h hr
    unfold moveLoop at hr
    split at hr
    · exact ih _ r (run_atMostOneHigh s x h) hr
    · cases hr
      exact h

theorem start_atMostOneHigh (s : Sys) (e : Env) (hd : s.drv._pinFrw ≠ s.drv._pinBkw)
    (hb : s.drv._pinBkw ≠ NC) : AtMostOneHigh (start s e) := by
  unfold AtMostOneHigh
  rw [start_drv, start_pin]
  dsimp only
  rw [motorOn_pin_frw s _ hd hb, motorOn_pin_bkw s _ hd hb]
  cases s.drv._dir <;> simp [HIGH]

/-- C7: with distinct forward and backward output pins, at most one output is
HIGH after `motorOn`, `motorOff`, `start` and `stop` from any state, after
every `run()` of a move begun by `start()`, and after `move`; a single `run()`
keeps the property. `motorOn(dir)` writes LOW to the forward output, LOW to
the backward output and then HIGH to the output of `dir`, and leaves the
output of the opposite direction LOW. -/
theorem C7_outputs_exclusive (s : Sys) (dir : Bool) (e : Env) (t : Int) (es : List Env)
    (hd : s.drv._pinFrw ≠ s.drv._pinBkw) (hb : s.drv._pinBkw ≠ NC) :
    AtMostOneHigh (motorOn s dir) ∧ AtMostOneHigh (motorOff s) ∧
    AtMostOneHigh (start s e) ∧ AtMostOneHigh (stop s) ∧
    (AtMostOneHigh s → AtMostOneHigh (run s e)) ∧
    AtMostOneHigh (runs (start s e) es) ∧
    (∀ r, move s dir t e es = some r → AtMostOneHigh r.2) ∧
    (motorOn s dir).writes = s.writes ++
      [(s.drv._pinFrw, LOW), (s.drv._pinBkw, LOW),
        (if dir then s.drv._pinFrw else s.drv._pinBkw, HIGH)] ∧
    (motorOn s dir).pin (if dir then s.drv._pinBkw else s.drv._pinFrw) = LOW := by
  refine ⟨?_, ?_, ?_, ?_, run_atMostOneHigh s e, ?_, ?_, motorOn_writes s dir hb, ?_⟩
  · unfold AtMostOneHigh
    rw [motorOn_drv, motorOn_pin_frw s _ hd hb, motorOn_pin_bkw s _ hd hb]
    cases dir <;> simp [HIGH]
  · apply atMostOneHigh_of_frw_low
    rw [motorOff_drv]
    exact motorOff_pin_frw s
  · exact start_atMostOneHigh s e hd hb
  · apply atMostOneHigh_of_frw_low
    rw [stop_drv]
    exact motorOff_pin_frw s
  · exact runs_atMostOneHigh es _ (start_atMostOneHigh s e hd hb)
  · intro r hr
    unfold move at hr
    cases hm : moveLoop (moveStart s dir t e) es with
    | none => rw [hm] at hr; exact absurd hr (by simp)
    | some s1 =>
      rw [hm] at hr
      have hr1 : (getStatus s1, s1) = r := by simpa using hr
      rw [← hr1]
      apply moveLoop_atMostOneHigh es _ s1 _ hm
      unfold moveStart
      dsimp only
      apply start_atMostOneHigh
      · split <;> exact hd
      · split <;> exact hb
  · cases dir
    · exact motorOn_pin_frw s false hd hb
    · exact motorOn_pin_bkw s true hd hb

/-- C7 on pins 2 and 3, from a board on which both outputs are HIGH. -/
theorem C7_outputs_exclusive_witness :
    sysC1.pin sysC1.drv._pinFrw = HIGH ∧ sysC1.pin sysC1.drv._pinBkw = HIGH ∧
    (AtMostOneHigh (motorOn sysC1 DRIVE_DIR_FORWARD) ∧ AtMostOneHigh (motorOff sysC1) ∧
    AtMostOneHigh (start sysC1 (sample 0 true (.fin 0))) ∧ AtMostOneHigh (stop sysC1) ∧
    (AtMostOneHigh sysC1 → AtMostOneHigh (run sysC1 (sample 0 true (.fin 0)))) ∧
    AtMostOneHigh (runs (start sysC1 (sample 0 true (.fin 0))) [sample 1 true (.fin 0)]) ∧
    (∀ r, move sysC1 DRIVE_DIR_FORWARD 2 (sample 0 true (.fin 0)) [sample 1 true (.fin 0)]
      = some r → AtMostOneHigh r.2) ∧
    (motorOn sysC1 DRIVE_DIR_FORWARD).writes = sysC1.writes ++
      [(sysC1.drv._pinFrw, LOW), (sysC1.drv._pinBkw, LOW),
        (if DRIVE_DIR_FORWARD then sysC1.drv._pinFrw else sysC1.drv._pinBkw, HIGH)] ∧
    (motorOn sysC1 DRIVE_DIR_FORWARD).pin
      (if DRIVE_DIR_FORWARD then sysC1.drv._pinBkw else sysC1.drv._pinFrw) = LOW) :=
  ⟨by decide, by decide,
    C7_outputs_exclusive sysC1 DRIVE_DIR_FORWARD (sample 0 true (.fin 0)) 2
      [sample 1 true (.fin 0)] (by decide) (by decide)⟩

/-! ## C8 -/

/-- C8: without a backward output (`_pinBkw = NC`), `motorOn(Backward)` and
`start()` with direction Backward write exactly one thing, LOW to the forward
output: the forward output is LOW afterwards, no pin is written HIGH and no
other pin changes, whatever the outputs were before. -/
theorem C8_no_backward_output (s : Sys) (e : Env) (hb : s.drv._pinBkw = NC) :
    ((motorOn s DRIVE_DIR_BACKWARD).writes = s.writes ++ [(s.drv._pinFrw, LOW)] ∧
      (motorOn s DRIVE_DIR_BACKWARD).pin s.drv._pinFrw = LOW ∧
      (∀ p, p ≠ s.drv._pinFrw → (motorOn s DRIVE_DIR_BACKWARD).pin p = s.pin p)) ∧
    (s.drv._dir = DRIVE_DIR_BACKWARD →
      (start s e).writes = s.writes ++ [(s.drv._pinFrw, LOW)] ∧
      (start s e).pin s.drv._pinFrw = LOW ∧
      (∀ p, p ≠ s.drv._pinFrw → (start s e).pin p = s.pin p)) := by
  have hm : (motorOn s DRIVE_DIR_BACKWARD).writes = s.writes ++ [(s.drv._pinFrw, LOW)] ∧
      (motorOn s DRIVE_DIR_BACKWARD).pin s.drv._pinFrw = LOW ∧
      (∀ p, p ≠ s.drv._pinFrw → (motorOn s DRIVE_DIR_BACKWARD).pin p = s.pin p) := by
    have hoff : motorOn s DRIVE_DIR_BACKWARD = digitalWrite s s.drv._pinFrw LOW := by
      unfold motorOn motorOff
      simp [hb, DRIVE_DIR_BACKWARD, digitalWrite_drv]
    rw [hoff]
    refine ⟨rfl, ?_, ?_⟩
    · show (if s.drv._pinFrw = s.drv._pinFrw then LOW else _) = LOW
      rw [if_pos rfl]
    · intro p hp
      show (if p = s.drv._pinFrw then LOW else s.pin p) = s.pin p
      rw [if_neg hp]
  refine ⟨hm, ?_⟩
  intro hdir
  have hs : (start s e).writes = (motorOn s DRIVE_DIR_BACKWARD).writes ∧
      (start s e).pin = (motorOn s DRIVE_DIR_BACKWARD).pin := by
    unfold start
    rw [hdir]
    exact ⟨rfl, rfl⟩
  rw [hs.1, hs.2]
  exact hm

/-- C8 on a forward-only controller whose board has every pin HIGH. -/
theorem C8_no_backward_output_witness :
    sysC8.pin sysC8.drv._pinFrw = HIGH ∧
    ((motorOn sysC8 DRIVE_DIR_BACKWARD).writes = sysC8.writes ++ [(sysC8.drv._pinFrw, LOW)] ∧
      (motorOn sysC8 DRIVE_DIR_BACKWARD).pin sysC8.drv._pinFrw = LOW ∧
      (∀ p, p ≠ sysC8.drv._pinFrw → (motorOn sysC8 DRIVE_DIR_BACKWARD).pin p = sysC8.pin p)) ∧
    (sysC8.drv._dir = DRIVE_DIR_BACKWARD →
      (start sysC8 (sample 7 true (.fin 0))).writes
        = sysC8.writes ++ [(sysC8.drv._pinFrw, LOW)] ∧
      (start sysC8 (sample 7 true (.fin 0))).pin sysC8.drv._pinFrw = LOW ∧
      (∀ p, p ≠ sysC8.drv._pinFrw →
        (start sysC8 (sample 7 true (.fin 0))).pin p = sysC8.pin p)) :=
  ⟨by decide, C8_no_backward_output sysC8 (sample 7 true (.fin 0)) (by decide)⟩

/-! ## C9 -/

theorem run_no_overtime (s : Sys) (e : Env) (h : s.drv._maxTimeSec = 0)
    (h1 : (run s e).drv.moveStatus = DRIVE_STATUS_OVERTIME) :
    s.drv.moveStatus = DRIVE_STATUS_OVERTIME := by
  unfold run at h1
  split at h1
  · rw [stop_drv] at h1
    simp [DRIVE_STATUS_OK, DRIVE_STATUS_OVERTIME] at h1
  · rw [if_neg (fun hc => hc.1 h)] at h1
    dsimp only at h1
    split at h1
    · rw [stop_drv] at h1
      simp [DRIVE_STATUS_OVERLOAD, DRIVE_STATUS_OVERTIME] at h1
    · dsimp only at h1
      rw [overloadControl_status] at h1
      exact h1

theorem run_maxTimeSec (s : Sys) (e : Env) : (run s e).drv._maxTimeSec = s.drv._maxTimeSec := by
  rw [run_frame]

theorem runs_no_overtime (es : List Env) :
    ∀ s : Sys, s.drv._maxTimeSec = 0 → s.drv.moveStatus ≠ DRIVE_STATUS_OVERTIME →
      (runs s es).drv.moveStatus ≠ DRIVE_STATUS_OVERTIME := by
  induction es with
  | nil => intro s _ h0; exact h0
  | cons x xs ih =>
    intro s h h0
    exact ih (run s x) ((run_maxTimeSec s x).trans h) fun h1 => h0 (run_no_overtime s x h h1)

/-- C9: with the time ceiling 0, no `run()` turns the status into Overtime
(1), whatever the start time, the clock, the switch levels and the current;
after `start()` the status is never Overtime, however many polls follow. -/
theorem C9_unlimited_time (s : Sys) (e0 e : Env) (es : List Env)
    (h : s.drv._maxTimeSec = 0) :
    ((run s e).drv.moveStatus = DRIVE_STATUS_OVERTIME →
      s.drv.moveStatus = DRIVE_STATUS_OVERTIME) ∧
    (runs (start s e0) es).drv.moveStatus ≠ DRIVE_STATUS_OVERTIME := by
  refine ⟨run_no_overtime s e h, ?_⟩
  apply runs_no_overtime es
  · rw [start_drv]
    exact h
  · rw [start_drv]
    show DRIVE_STATUS_IN_WORK ≠ DRIVE_STATUS_OVERTIME
    decide

/-- C9 on a move started at clock 4294967000 and polled after the 32-bit
clock has wrapped, and again a hundred days later. -/
theorem C9_unlimited_time_witness :
    (setTime sys0 0).drv._maxTimeSec = 0 ∧
    ((run (setTime sys0 0) (sample 8640000000 true (.fin 0))).drv.moveStatus
        = DRIVE_STATUS_OVERTIME → (setTime sys0 0).drv.moveStatus = DRIVE_STATUS_OVERTIME) ∧
    (runs (start (setTime sys0 0) (sample 4294967000 true (.fin 0)))
      [sample 4294967400 true (.fin 0), sample 8640000000 true (.fin 0)]).drv.moveStatus
      ≠ DRIVE_STATUS_OVERTIME ∧
    (runs (start (setTime sys0 0) (sample 4294967000 true (.fin 0)))
      [sample 4294967400 true (.fin 0), sample 8640000000 true (.fin 0)]).drv.moveStatus
      = DRIVE_STATUS_IN_WORK :=
  ⟨by decide,
    (C9_unlimited_time (setTime sys0 0) (sample 4294967000 true (.fin 0))
      (sample 8640000000 true (.fin 0))
      [sample 4294967400 true (.fin 0), sample 8640000000 true (.fin 0)] (by decide)).1,
    (C9_unlimited_time (setTime sys0 0) (sample 4294967000 true (.fin 0))
      (sample 8640000000 true (.fin 0))
      [sample 4294967400 true (.fin 0), sample 8640000000 true (.fin 0)] (by decide)).2,
    by decide⟩

/-! ## C10 -/

/-- C10, the code at a failing input: the stored direction is Forward and
`move(Backward)` is called while the backward switch (pin 5) is pressed and
the forward switch (pin 4) is not. The call leaves the stored direction
Forward, writes HIGH to the forward output (pin 2) and never to the backward
output (pin 3), does not stop at the pressed backward switch and ends when the
forward switch is pressed. The two-argument `move(Backward, 0)` on the same
input sets the direction to Backward, drives pin 3 and stops at the first
poll. -/
theorem C10_move_dir_ignores_argument :
    sys0.drv._dir = DRIVE_DIR_FORWARD ∧
    readEndSw sys0.drv (sampleLow 1 5) DRIVE_DIR_BACKWARD = true ∧
    (move_dir sys0 DRIVE_DIR_BACKWARD (sample 0 true (.fin 0)) [sampleLow 1 5]).isSome
      = false ∧
    (move_dir sys0 DRIVE_DIR_BACKWARD (sample 0 true (.fin 0))
        [sampleLow 1 5, sampleLow 2 4]).map (fun r => (r.1, r.2.drv._dir, r.2.writes))
      = some (DRIVE_STATUS_OK, DRIVE_DIR_FORWARD,
          [(2, LOW), (3, LOW), (2, HIGH), (2, LOW), (3, LOW)]) ∧
    (move sys0 DRIVE_DIR_BACKWARD 0 (sample 0 true (.fin 0))
        [sampleLow 1 5, sampleLow 2 4]).map (fun r => (r.1, r.2.drv._dir, r.2.writes))
      = some (DRIVE_STATUS_OK, DRIVE_DIR_BACKWARD,
          [(2, LOW), (3, LOW), (3, HIGH), (2, LOW), (3, LOW)]) := by
  decide

/-! ## C11 -/

/-- C11, the code at a failing input: a time ceiling of 2 s is stored by
`setTime(2)`, then `move(Forward, 0)` is called with a forward switch that is
never pressed and the overload monitor off. `move` skips `setTime` when its
time argument is 0, so the stored ceiling 2 stays in force: the poll 2001 ms
after the start sets Overtime and `move` returns 1. On a controller whose
stored ceiling is 0 the same call is still in progress after the same polls. -/
theorem C11_move_zero_keeps_ceiling :
    (setTime sys0 2).drv._maxTimeSec = 2 ∧
    (moveStart (setTime sys0 2) DRIVE_DIR_FORWARD 0 (sample 0 true (.fin 0))).drv._maxTimeSec
      = 2 ∧
    (move (setTime sys0 2) DRIVE_DIR_FORWARD 0 (sample 0 true (.fin 0))
        [sample 1000 true (.fin 0), sample 2001 true (.fin 0)]).map (fun r => r.1)
      = some DRIVE_STATUS_OVERTIME ∧
    (move sys0 DRIVE_DIR_FORWARD 0 (sample 0 true (.fin 0))
        [sample 1000 true (.fin 0), sample 2001 true (.fin 0)]).isSome = false := by
  decide

/-! ## C12 -/

/-- C12 fails as stated: after a `run()` has set Overtime, a later `run()` at
which the limit switch reads pressed sets the status to Ok, and after a
`run()` has set Ok, a later `run()` past the time ceiling with the switch
released sets Overtime; no `start()` comes in between. -/
theorem C12_terminal_status_overwritten :
    (runs (start (setTime sys0 2) (sample 0 true (.fin 0)))
      [sample 2001 true (.fin 0)]).drv.moveStatus = DRIVE_STATUS_OVERTIME ∧
    (runs (start (setTime sys0 2) (sample 0 true (.fin 0)))
      [sample 2001 true (.fin 0), sample 2002 false (.fin 0)]).drv.moveStatus
      = DRIVE_STATUS_OK ∧
    (runs (start (setTime sys0 2) (sample 0 true (.fin 0)))
      [sample 1000 false (.fin 0)]).drv.moveStatus = DRIVE_STATUS_OK ∧
    (runs (start (setTime sys0 2) (sample 0 true (.fin 0)))
      [sample 1000 false (.fin 0), sample 3000 true (.fin 0)]).drv.moveStatus
      = DRIVE_STATUS_OVERTIME := by
  decide

theorem moveLoop_done (s : Sys) (es : List Env)
    (h : getStatus s ≠ DRIVE_STATUS_IN_WORK) : moveLoop s es = some s := by
  cases es with
  | nil => unfold moveLoop; rw [if_neg h]
  | cons x xs => unfold moveLoop; rw [if_neg h]

/-- C12 as amended: `run()` does not test the status. A `run()` at which the
limit switch of the current direction does not read pressed, the time-ceiling
check does not fire and `overloadControl()` returns 0 leaves the status as it
was, whatever it was; and the loop of `move` makes no further `run()` call
once the status is not InProgress. -/
theorem C12_status_kept_when_no_check_fires (s : Sys) (e : Env) (es : List Env)
    (hsw : readEndSw s.drv e s.drv._dir = false)
    (ht : ¬ (s.drv._maxTimeSec ≠ 0 ∧
      subU32 (millis e) s.drv.tmrStart > toU32 (mulInt s.drv._maxTimeSec 1000)))
    (hoc : (overloadControl s.drv e).1 = 0) :
    (run s e).drv.moveStatus = s.drv.moveStatus ∧
    (s.drv.moveStatus ≠ DRIVE_STATUS_IN_WORK → moveLoop s es = some s) := by
  constructor
  · unfold run
    rw [hsw, if_neg (by decide), if_neg ht]
    dsimp only
    rw [if_neg (by simpa using hoc)]
    exact overloadControl_status s.drv e
  · exact moveLoop_done s es

/-- C12 as amended, at a state whose status is Ok (the switch was pressed at
1000 ms) and a later poll within the ceiling with the switch released. -/
theorem C12_status_kept_when_no_check_fires_witness :
    (runs (start (setTime sys0 2) (sample 0 true (.fin 0)))
      [sample 1000 false (.fin 0)]).drv.moveStatus = DRIVE_STATUS_OK ∧
    (run (runs (start (setTime sys0 2) (sample 0 true (.fin 0)))
      [sample 1000 false (.fin 0)]) (sample 1500 true (.fin 0))).drv.moveStatus
      = (runs (start (setTime sys0 2) (sample 0 true (.fin 0)))
          [sample 1000 false (.fin 0)]).drv.moveStatus ∧
    ((runs (start (setTime sys0 2) (sample 0 true (.fin 0)))
      [sample 1000 false (.fin 0)]).drv.moveStatus ≠ DRIVE_STATUS_IN_WORK →
      moveLoop (runs (start (setTime sys0 2) (sample 0 true (.fin 0)))
        [sample 1000 false (.fin 0)]) [sample 3000 true (.fin 0)]
        = some (runs (start (setTime sys0 2) (sample 0 true (.fin 0)))
          [sample 1000 false (.fin 0)])) :=
  ⟨by decide,
    C12_status_kept_when_no_check_fires
      (runs (start (setTime sys0 2) (sample 0 true (.fin 0))) [sample 1000 false (.fin 0)])
      (sample 1500 true (.fin 0)) [sample 3000 true (.fin 0)]
      (by decide) (by decide) (by decide)⟩

/-! ## C13 -/

theorem motorOff_pin_other (s : Sys) (p : Nat) (h1 : p ≠ s.drv._pinFrw)
    (h2 : p ≠ s.drv._pinBkw) : (motorOff s).pin p = s.pin p := by
  unfold motorOff digitalWrite
  dsimp only
  split
  · show (if p = s.drv._pinBkw then LOW else if p = s.drv._pinFrw then LOW else s.pin p) = s.pin p
    rw [if_neg h2, if_neg h1]
  · show (if p = s.drv._pinFrw then LOW else s.pin p) = s.pin p
    rw [if_neg h1]

/-- C13: `stop()` leaves every field of the object as it was (status,
direction, time ceiling, start time stamp, overload latch and the rest) and
changes no pin other than the two outputs; a `stop()` right after `start()`
leaves the status InProgress (10), not Stopped (3). -/
theorem C13_stop_frame (s : Sys) (e : Env) :
    (stop s).drv = s.drv ∧
    (∀ p, p ≠ s.drv._pinFrw → p ≠ s.drv._pinBkw → (stop s).pin p = s.pin p) ∧
    (stop (start s e)).drv.moveStatus = DRIVE_STATUS_IN_WORK ∧
    (stop (start s e)).drv.moveStatus ≠ DRIVE_STATUS_STOPPED := by
  have h : (stop (start s e)).drv.moveStatus = DRIVE_STATUS_IN_WORK := by
    rw [stop_drv, start_drv]
  refine ⟨motorOff_drv s, motorOff_pin_other s, h, ?_⟩
  rw [h]
  decide

/-- C13 on a state in the middle of a move with the latch Suspect. -/
theorem C13_stop_frame_witness :
    (stop sysC1).drv = sysC1.drv ∧
    (∀ p, p ≠ sysC1.drv._pinFrw → p ≠ sysC1.drv._pinBkw → (stop sysC1).pin p = sysC1.pin p) ∧
    (stop (start sysC1 (sample 9 true (.fin 0)))).drv.moveStatus = DRIVE_STATUS_IN_WORK ∧
    (stop (start sysC1 (sample 9 true (.fin 0)))).drv.moveStatus ≠ DRIVE_STATUS_STOPPED :=
  C13_stop_frame sysC1 (sample 9 true (.fin 0))

/-! ## C14 -/

theorem iterate_stop_drv (n : Nat) (s : Sys) : (stop^[n] s).drv = s.drv := by
  induction n with
  | zero => rfl
  | succ k ih => rw [Function.iterate_succ_apply', stop_drv, ih]

/-- C14: a second `stop()` changes neither the object nor the level of any
pin (it only repeats the writes of the first), and after `n ≥ 1` successive
`stop()` calls the forward output is LOW and the backward output, if
configured, is LOW. -/
theorem C14_stop_idempotent (s : Sys) (n : Nat) (hn : 1 ≤ n) :
    (stop (stop s)).drv = (stop s).drv ∧
    (stop (stop s)).pin = (stop s).pin ∧
    (stop^[n] s).pin s.drv._pinFrw = LOW ∧
    (s.drv._pinBkw ≠ NC → (stop^[n] s).pin s.drv._pinBkw = LOW) := by
  refine ⟨by rw [stop_drv], ?_, ?_, ?_⟩
  · funext p
    by_cases h1 : p = s.drv._pinFrw
    · rw [h1]
      have := motorOff_pin_frw (stop s)
      rw [stop_drv] at this
      exact this.trans (motorOff_pin_frw s).symm
    · by_cases h2 : p = s.drv._pinBkw
      · by_cases hb : s.drv._pinBkw = NC
        · have hs : ∀ t : Sys, t.drv._pinBkw = NC → t.drv._pinFrw = s.drv._pinFrw →
              (stop t).pin p = t.pin p := by
            intro t ht hf
            unfold stop motorOff digitalWrite
            dsimp only
            rw [if_neg (by simpa using ht)]
            show (if p = t.drv._pinFrw then LOW else t.pin p) = t.pin p
            rw [hf, if_neg h1]
          exact hs (stop s) (by rw [stop_drv]; exact hb) (by rw [stop_drv])
        · rw [h2]
          have := motorOff_pin_bkw (stop s) (by rw [stop_drv]; exact hb)
          rw [stop_drv] at this
          exact this.trans (motorOff_pin_bkw s hb).symm
      · exact motorOff_pin_other (stop s) p (by rw [stop_drv]; exact h1)
          (by rw [stop_drv]; exact h2)
  · obtain ⟨k, rfl⟩ : ∃ k, n = k + 1 := ⟨n - 1, by omega⟩
    rw [Function.iterate_succ_apply']
    have := motorOff_pin_frw (stop^[k] s)
    rw [iterate_stop_drv] at this
    exact this
  · intro hb
    obtain ⟨k, rfl⟩ : ∃ k, n = k + 1 := ⟨n - 1, by omega⟩
    rw [Function.iterate_succ_apply']
    have := motorOff_pin_bkw (stop^[k] s) (by rw [iterate_stop_drv]; exact hb)
    rw [iterate_stop_drv] at this
    exact this

/-- C14 with three `stop()` calls on a board whose outputs are both HIGH. -/
theorem C14_stop_idempotent_witness :
    sysC1.pin sysC1.drv._pinFrw = HIGH ∧ sysC1.pin sysC1.drv._pinBkw = HIGH ∧
    (stop (stop sysC1)).drv = (stop sysC1).drv ∧
    (stop (stop sysC1)).pin = (stop sysC1).pin ∧
    (stop^[3] sysC1).pin sysC1.drv._pinFrw = LOW ∧
    (sysC1.drv._pinBkw ≠ NC → (stop^[3] sysC1).pin sysC1.drv._pinBkw = LOW) :=
  ⟨by decide, by decide, C14_stop_idempotent sysC1 3 (by decide)⟩

/-! ## C15 -/

/-- C15: while the overload monitor is disabled (`_curr` is the null pointer,
as after construction and after `offOverload()`), for every latch state, clock
and current value `overloadControl()` returns 0 and leaves the object as it
was, `run()` never turns the status into Overload (2), and `run()` gives the
same result for any other content of the current memory. -/
theorem C15_disabled_monitor_inert (s : Sys) (e e1 : Env)
    (hoff : s.drv._curr = none) (hdin : e1.din = e.din) (hms : e1.ms = e.ms) :
    overloadControl s.drv e = (0, s.drv) ∧
    ((run s e).drv.moveStatus = DRIVE_STATUS_OVERLOAD →
      s.drv.moveStatus = DRIVE_STATUS_OVERLOAD) ∧
    run s e1 = run s e ∧
    (offOverload s).drv._curr = none ∧
    (∀ a b c d l1 l2 t0 t1, (new a b c d l1 l2 t0 t1)._curr = none) := by
  refine ⟨overloadControl_off s.drv e hoff, ?_, ?_, rfl, fun _ _ _ _ _ _ _ _ => rfl⟩
  · intro h
    by_contra h0
    have := run_sets_overload s e h0 h
    rw [overloadControl_off s.drv e hoff] at this
    exact this rfl
  · have hsw : readEndSw s.drv e1 s.drv._dir = readEndSw s.drv e s.drv._dir := by
      unfold readEndSw digitalRead
      rw [hdin]
    have hmil : millis e1 = millis e := by
      unfold millis
      rw [hms]
    unfold run
    rw [hsw, hmil, overloadControl_off s.drv e hoff, overloadControl_off s.drv e1 hoff]

/-- C15 after `offOverload()` on a state whose latch is Suspect since clock 0
and whose current reads 6.0 above the threshold 5.0, a million milliseconds
later: the status stays InProgress, as with a current of 0. -/
theorem C15_disabled_monitor_inert_witness :
    (overloadControl (setTime sysC1 0).drv (sample 1000000 true (.fin 6))).1 = 1 ∧
    overloadControl (offOverload (setTime sysC1 0)).drv (sample 1000000 true (.fin 6))
      = (0, (offOverload (setTime sysC1 0)).drv) ∧
    ((run (offOverload (setTime sysC1 0)) (sample 1000000 true (.fin 6))).drv.moveStatus
        = DRIVE_STATUS_OVERLOAD →
      (offOverload (setTime sysC1 0)).drv.moveStatus = DRIVE_STATUS_OVERLOAD) ∧
    run (offOverload (setTime sysC1 0)) (sample 1000000 true (.fin 0))
      = run (offOverload (setTime sysC1 0)) (sample 1000000 true (.fin 6)) ∧
    (offOverload (offOverload (setTime sysC1 0))).drv._curr = none ∧
    (∀ a b c d l1 l2 t0 t1, (new a b c d l1 l2 t0 t1)._curr = none) ∧
    (run (offOverload (setTime sysC1 0)) (sample 1000000 true (.fin 6))).drv.moveStatus
      = DRIVE_STATUS_IN_WORK :=
  ⟨by decide,
    (C15_disabled_monitor_inert (offOverload (setTime sysC1 0)) (sample 1000000 true (.fin 6))
      (sample 1000000 true (.fin 0)) rfl rfl rfl).1,
    (C15_disabled_monitor_inert (offOverload (setTime sysC1 0)) (sample 1000000 true (.fin 6))
      (sample 1000000 true (.fin 0)) rfl rfl rfl).2.1,
    (C15_disabled_monitor_inert (offOverload (setTime sysC1 0)) (sample 1000000 true (.fin 6))
      (sample 1000000 true (.fin 0)) rfl rfl rfl).2.2.1,
    (C15_disabled_monitor_inert (offOverload (setTime sysC1 0)) (sample 1000000 true (.fin 6))
      (sample 1000000 true (.fin 0)) rfl rfl rfl).2.2.2.1,
    (C15_disabled_monitor_inert (offOverload (setTime sysC1 0)) (sample 1000000 true (.fin 6))
      (sample 1000000 true (.fin 0)) rfl rfl rfl).2.2.2.2,
    by decide⟩

/-! ## C16 -/

/-- A `run()` at which the switch does not read pressed keeps the status or
sets Overtime or Overload. -/
theorem run_no_ok (s : Sys) (e : Env) (hsw : readEndSw s.drv e s.drv._dir = false) :
    (run s e).drv.moveStatus = s.drv.moveStatus ∨
    (run s e).drv.moveStatus = DRIVE_STATUS_OVERTIME ∨
    (run s e).drv.moveStatus = DRIVE_STATUS_OVERLOAD := by
  unfold run
  rw [hsw, if_neg (by decide)]
  split
  · right; left
    rw [stop_drv]
  · dsimp only
    split
    · right; right
      rw [stop_drv]
    · left
      exact overloadControl_status s.drv e

theorem readEndSw_absent (d : AdvDrive) (e : Env) (dir : Bool)
    (h : (if dir = DRIVE_DIR_FORWARD then d._pinSwFrw else d._pinSwBkw) = NC) :
    readEndSw d e dir = false := by
  unfold readEndSw
  split
  · rename_i hd
    rw [if_pos hd] at h
    rw [if_neg (by simpa using h)]
  · rename_i hd
    rw [if_neg hd] at h
    rw [if_neg (by simpa using h)]

theorem run_swcfg (s : Sys) (e : Env) :
    (run s e).drv._dir = s.drv._dir ∧ (run s e).drv._pinSwFrw = s.drv._pinSwFrw ∧
    (run s e).drv._pinSwBkw = s.drv._pinSwBkw := by
  have h := run_frame s e
  exact ⟨by rw [h], by rw [h], by rw [h]⟩

theorem runs_no_ok (es : List Env) :
    ∀ s : Sys, (if s.drv._dir = DRIVE_DIR_FORWARD then s.drv._pinSwFrw else s.drv._pinSwBkw) = NC →
      (s.drv.moveStatus = DRIVE_STATUS_IN_WORK ∨ s.drv.moveStatus = DRIVE_STATUS_OVERTIME ∨
        s.drv.moveStatus = DRIVE_STATUS_OVERLOAD) →
      ((runs s es).drv.moveStatus = DRIVE_STATUS_IN_WORK ∨
        (runs s es).drv.moveStatus = DRIVE_STATUS_OVERTIME ∨
        (runs s es).drv.moveStatus = DRIVE_STATUS_OVERLOAD) := by
  induction es with
  | nil => intro s _ h; exact h
  | cons x xs ih =>
    intro s hpin h
    apply ih (run s x)
    · obtain ⟨h1, h2, h3⟩ := run_swcfg s x
      rw [h1, h2, h3]
      exact hpin
    · rcases run_no_ok s x (readEndSw_absent s.drv x _ hpin) with h1 | h1 | h1
      · rw [h1]; exact h
      · exact Or.inr (Or.inl h1)
      · exact Or.inr (Or.inr h1)

/-- C16: if the switch pin of the current direction is absent (`NC`),
`readEndSw` of that direction returns not-pressed for every raw pin state and
both configured levels; a `run()` then leaves the status as it was or sets
Overtime or Overload, and after `start()` and any number of polls the status
is InProgress, Overtime or Overload, never Ok. -/
theorem C16_absent_switch_never_ok (s : Sys) (e0 e : Env) (es : List Env)
    (hpin : (if s.drv._dir = DRIVE_DIR_FORWARD then s.drv._pinSwFrw else s.drv._pinSwBkw)
      = NC) :
    readEndSw s.drv e s.drv._dir = false ∧
    ((run s e).drv.moveStatus = s.drv.moveStatus ∨
      (run s e).drv.moveStatus = DRIVE_STATUS_OVERTIME ∨
      (run s e).drv.moveStatus = DRIVE_STATUS_OVERLOAD) ∧
    ((runs (start s e0) es).drv.moveStatus = DRIVE_STATUS_IN_WORK ∨
      (runs (start s e0) es).drv.moveStatus = DRIVE_STATUS_OVERTIME ∨
      (runs (start s e0) es).drv.moveStatus = DRIVE_STATUS_OVERLOAD) ∧
    (runs (start s e0) es).drv.moveStatus ≠ DRIVE_STATUS_OK := by
  have h1 := readEndSw_absent s.drv e _ hpin
  have h3 : (runs (start s e0) es).drv.moveStatus = DRIVE_STATUS_IN_WORK ∨
      (runs (start s e0) es).drv.moveStatus = DRIVE_STATUS_OVERTIME ∨
      (runs (start s e0) es).drv.moveStatus = DRIVE_STATUS_OVERLOAD := by
    apply runs_no_ok es
    · rw [start_drv]
      exact hpin
    · left
      rw [start_drv]
  refine ⟨h1, run_no_ok s e h1, h3, ?_⟩
  rcases h3 with h | h | h <;> rw [h] <;> decide

/-- C16 on a controller without a forward switch: with every input LOW (which
a wired switch resting HIGH would read as pressed) the status stays
InProgress, and past the ceiling it is Overtime. -/
theorem C16_absent_switch_never_ok_witness :
    readEndSw sysC16.drv (sample 1000 false (.fin 0)) sysC16.drv._dir = false ∧
    ((run sysC16 (sample 1000 false (.fin 0))).drv.moveStatus = sysC16.drv.moveStatus ∨
      (run sysC16 (sample 1000 false (.fin 0))).drv.moveStatus = DRIVE_STATUS_OVERTIME ∨
      (run sysC16 (sample 1000 false (.fin 0))).drv.moveStatus = DRIVE_STATUS_OVERLOAD) ∧
    ((runs (start sysC16 (sample 0 false (.fin 0)))
        [sample 1000 false (.fin 0), sample 2001 false (.fin 0)]).drv.moveStatus
        = DRIVE_STATUS_IN_WORK ∨
      (runs (start sysC16 (sample 0 false (.fin 0)))
        [sample 1000 false (.fin 0), sample 2001 false (.fin 0)]).drv.moveStatus
        = DRIVE_STATUS_OVERTIME ∨
      (runs (start sysC16 (sample 0 false (.fin 0)))
        [sample 1000 false (.fin 0), sample 2001 false (.fin 0)]).drv.moveStatus
        = DRIVE_STATUS_OVERLOAD) ∧
    (runs (start sysC16 (sample 0 false (.fin 0)))
      [sample 1000 false (.fin 0), sample 2001 false (.fin 0)]).drv.moveStatus
      ≠ DRIVE_STATUS_OK :=
  C16_absent_switch_never_ok sysC16 (sample 0 false (.fin 0)) (sample 1000 false (.fin 0))
    [sample 1000 false (.fin 0), sample 2001 false (.fin 0)] (by decide)

/-! ## C17 -/

/-- C17 fails as stated: on a forward-only controller (`_pinBkw = NC`) with
direction Backward and a wired backward switch (pin 5) that reads pressed at
the start and at the first poll, the first `run()` after `start()` sets the
status to Ok. -/
theorem C17_pressed_backward_switch_gives_ok :
    sysC8.drv._pinBkw = NC ∧ sysC8.drv._dir = DRIVE_DIR_BACKWARD ∧
    sysC8.drv._pinSwBkw ≠ NC ∧
    readEndSw sysC8.drv (sampleLow 0 5) DRIVE_DIR_BACKWARD = true ∧
    (start sysC8 (sampleLow 0 5)).drv.moveStatus = DRIVE_STATUS_IN_WORK ∧
    (run (start sysC8 (sampleLow 0 5)) (sampleLow 1 5)).drv.moveStatus = DRIVE_STATUS_OK := by
  decide

/-- C17 as amended: with no backward output and direction Backward, a `run()`
after `start()` at which the backward switch reads pressed (so it is wired)
sets the status to Ok: `run()` reads the switch of the current direction
whether or not an output is driven. The two calls write LOW to the forward
output twice and nothing else, so no output was ever asserted. -/
theorem C17_backward_switch_read_without_output (s : Sys) (e0 e : Env)
    (hb : s.drv._pinBkw = NC) (hdir : s.drv._dir = DRIVE_DIR_BACKWARD)
    (hp : readEndSw s.drv e DRIVE_DIR_BACKWARD = true) :
    (run (start s e0) e).drv.moveStatus = DRIVE_STATUS_OK ∧
    (run (start s e0) e).pin s.drv._pinFrw = LOW ∧
    (run (start s e0) e).writes = s.writes ++ [(s.drv._pinFrw, LOW), (s.drv._pinFrw, LOW)] := by
  have hsw : readEndSw (start s e0).drv e (start s e0).drv._dir = true := by
    rw [start_drv]
    dsimp only
    rw [hdir]
    exact hp
  have hrun : run (start s e0) e
      = stop { start s e0 with
          drv := { (start s e0).drv with moveStatus := DRIVE_STATUS_OK } } := by
    unfold run
    rw [hsw, if_pos rfl]
  have hst : (start s e0).writes = s.writes ++ [(s.drv._pinFrw, LOW)] := by
    unfold start motorOn motorOff
    simp [hb, hdir, DRIVE_DIR_BACKWARD, digitalWrite]
  have hpf : (start s e0).drv._pinFrw = s.drv._pinFrw := by rw [start_drv]
  have hpb : (start s e0).drv._pinBkw = s.drv._pinBkw := by rw [start_drv]
  refine ⟨?_, ?_, ?_⟩
  · rw [hrun, stop_drv]
  · rw [hrun, ← hpf]
    exact motorOff_pin_frw _
  · rw [hrun]
    unfold stop
    rw [motorOff_writes]
    dsimp only
    rw [hpb, hpf, hst, if_neg (by simpa using hb)]
    simp

/-- C17 as amended, on the forward-only controller of the counterexample. -/
theorem C17_backward_switch_read_without_output_witness :
    (run (start sysC8 (sampleLow 0 5)) (sampleLow 1 5)).drv.moveStatus = DRIVE_STATUS_OK ∧
    (run (start sysC8 (sampleLow 0 5)) (sampleLow 1 5)).pin sysC8.drv._pinFrw = LOW ∧
    (run (start sysC8 (sampleLow 0 5)) (sampleLow 1 5)).writes
      = sysC8.writes ++ [(sysC8.drv._pinFrw, LOW), (sysC8.drv._pinFrw, LOW)] :=
  C17_backward_switch_read_without_output sysC8 (sampleLow 0 5) (sampleLow 1 5)
    (by decide) (by decide) (by decide)

/-! ## C18 -/

theorem overloadControl_suspect_above (d : AdvDrive) (e : Env) (a : Nat)
    (hc : d._curr = some a) (hf : d.f_overCurr = true)
    (hle : (e.mem a).le d._maxCurr = false) :
    (overloadControl d e).1
      = if subU32 (millis e) d.tmrOverload > toU32 (mulInt d._overload_ms 1000) then 1 else 0 := by
  unfold overloadControl
  simp only [hc]
  rw [if_neg (by simp [hf]), if_neg (by simp [hle])]
  split <;> rfl

/-- The status after `run()`, check by check. -/
theorem run_status (s : Sys) (e : Env) :
    (run s e).drv.moveStatus
      = if readEndSw s.drv e s.drv._dir = true then DRIVE_STATUS_OK
        else if s.drv._maxTimeSec ≠ 0 ∧
            subU32 (millis e) s.drv.tmrStart > toU32 (mulInt s.drv._maxTimeSec 1000)
          then DRIVE_STATUS_OVERTIME
        else if (overloadControl s.drv e).1 ≠ 0 then DRIVE_STATUS_OVERLOAD
        else s.drv.moveStatus := by
  unfold run
  by_cases h1 : readEndSw s.drv e s.drv._dir = true
  · rw [if_pos h1, if_pos h1, stop_drv]
  · rw [if_neg h1, if_neg h1]
    by_cases h2 : s.drv._maxTimeSec ≠ 0 ∧
        subU32 (millis e) s.drv.tmrStart > toU32 (mulInt s.drv._maxTimeSec 1000)
    · rw [if_pos h2, if_pos h2, stop_drv]
    · rw [if_neg h2, if_neg h2]
      dsimp only
      by_cases h3 : (overloadControl s.drv e).1 ≠ 0
      · rw [if_pos h3, if_pos h3, stop_drv]
      · rw [if_neg h3, if_neg h3]
        exact overloadControl_status s.drv e

/-- What `overloadControl()` returns depends on the monitor's fields only. -/
theorem overloadControl_fst_congr (d d1 : AdvDrive) (e : Env)
    (h1 : d1._curr = d._curr) (h2 : d1.f_overCurr = d.f_overCurr)
    (h3 : d1._maxCurr = d._maxCurr) (h4 : d1.tmrOverload = d.tmrOverload)
    (h5 : d1._overload_ms = d._overload_ms) :
    (overloadControl d1 e).1 = (overloadControl d e).1 := by
  unfold overloadControl
  rw [h1, h2, h3, h4, h5]
  cases d._curr with
  | none => rfl
  | some a =>
    dsimp only
    split
    · split <;> rfl
    · split
      · rfl
      · split <;> rfl

theorem overloadControl_start (s : Sys) (e0 e : Env) :
    (overloadControl (start s e0).drv e).1 = (overloadControl s.drv e).1 := by
  have hd := start_drv s e0
  exact overloadControl_fst_congr s.drv (start s e0).drv e (by rw [hd]) (by rw [hd])
    (by rw [hd]) (by rw [hd]) (by rw [hd])

/-- The status after the first `run()` following `start()`. -/
theorem run_start_status (s : Sys) (e0 e : Env) :
    (run (start s e0) e).drv.moveStatus
      = if readEndSw s.drv e s.drv._dir = true then DRIVE_STATUS_OK
        else if s.drv._maxTimeSec ≠ 0 ∧
            subU32 (millis e) (millis e0) > toU32 (mulInt s.drv._maxTimeSec 1000)
          then DRIVE_STATUS_OVERTIME
        else if (overloadControl s.drv e).1 ≠ 0 then DRIVE_STATUS_OVERLOAD
        else DRIVE_STATUS_IN_WORK := by
  rw [run_status, overloadControl_start, start_drv]
  rfl

/-- The report of `overloadControl()` when the stamp of a Suspect latch is
the clock of `e1`, for every monitor state. -/
theorem overloadControl_report_iff (d : AdvDrive) (e1 e : Env)
    (hst : d.f_overCurr = true → d.tmrOverload = millis e1) :
    ((overloadControl d e).1 = 1 ↔
      ∃ a, d._curr = some a ∧ d.f_overCurr = true ∧ (e.mem a).le d._maxCurr = false ∧
        subU32 (millis e) (millis e1) > toU32 (mulInt d._overload_ms 1000)) := by
  constructor
  · intro h
    have hne : (overloadControl d e).1 ≠ 0 := by
      rw [h]
      decide
    obtain ⟨hf, hgt, -, -⟩ := overloadControl_report d e hne
    cases hc : d._curr with
    | none =>
      rw [overloadControl_off d e hc] at hne
      exact absurd rfl hne
    | some a =>
      refine ⟨a, rfl, hf, overloadControl_report_reading d e a hc hne, ?_⟩
      rw [← hst hf]
      exact hgt
  · rintro ⟨a, hc, hf, hle, hgt⟩
    rw [overloadControl_suspect_above d e a hc hf hle, hst hf, if_pos hgt]

/-- C18: let the clock read `e0.ms` when `start()` runs and `e.ms` at a later
poll, less than `2^32` ms afterwards, with any number of 32-bit overflows of
`millis()` in between. The unsigned difference the code forms is the true
elapsed time `e.ms - e0.ms`. For every state of the overload monitor, the
poll sets Overtime exactly when the ceiling is not 0 and the true elapsed time
exceeds `_maxTimeSec * 1000`, and never when the true elapsed time is within
the ceiling. For a latch whose stamp was taken at clock `e1.ms`, less than
`2^32` ms before the poll, `overloadControl()` reports exactly when the
monitor is enabled, the latch is Suspect, the reading is not at or below
`_maxCurr` and the true elapsed time `e.ms - e1.ms` exceeds the threshold
`_overload_ms * 1000`; within the threshold, or with the monitor off or the
latch Normal, it returns 0, and then the poll does not set Overload and, if
the switch is not pressed and the ceiling is not exceeded, leaves the status
InProgress. -/
theorem C18_wraparound_elapsed (s : Sys) (e0 e1 e : Env)
    (h0 : e0.ms ≤ e.ms) (h0lt : e.ms - e0.ms < 4294967296) :
    subU32 (millis e) (millis e0) = e.ms - e0.ms ∧
    (0 ≤ s.drv._maxTimeSec → s.drv._maxTimeSec * 1000 ≤ 2147483647 →
      readEndSw s.drv e s.drv._dir = false →
      ((run (start s e0) e).drv.moveStatus = DRIVE_STATUS_OVERTIME ↔
        s.drv._maxTimeSec ≠ 0 ∧ s.drv._maxTimeSec * 1000 < ((e.ms - e0.ms : Nat) : Int))) ∧
    (0 ≤ s.drv._maxTimeSec → s.drv._maxTimeSec * 1000 ≤ 2147483647 →
      ((e.ms - e0.ms : Nat) : Int) ≤ s.drv._maxTimeSec * 1000 →
      (run (start s e0) e).drv.moveStatus ≠ DRIVE_STATUS_OVERTIME) ∧
    (e1.ms ≤ e.ms → e.ms - e1.ms < 4294967296 →
      0 ≤ s.drv._overload_ms → s.drv._overload_ms * 1000 ≤ 2147483647 →
      (s.drv.f_overCurr = true → s.drv.tmrOverload = millis e1) →
      ((overloadControl s.drv e).1 = 1 ↔
        ∃ a, s.drv._curr = some a ∧ s.drv.f_overCurr = true ∧
          (e.mem a).le s.drv._maxCurr = false ∧
          s.drv._overload_ms * 1000 < ((e.ms - e1.ms : Nat) : Int))) ∧
    (e1.ms ≤ e.ms → e.ms - e1.ms < 4294967296 →
      0 ≤ s.drv._overload_ms → s.drv._overload_ms * 1000 ≤ 2147483647 →
      (s.drv.f_overCurr = true → s.drv.tmrOverload = millis e1) →
      ((e.ms - e1.ms : Nat) : Int) ≤ s.drv._overload_ms * 1000 →
      (overloadControl s.drv e).1 = 0) ∧
    (s.drv._curr = none ∨ s.drv.f_overCurr = false → (overloadControl s.drv e).1 = 0) ∧
    ((overloadControl s.drv e).1 = 0 →
      (run (start s e0) e).drv.moveStatus ≠ DRIVE_STATUS_OVERLOAD) ∧
    (0 ≤ s.drv._maxTimeSec → s.drv._maxTimeSec * 1000 ≤ 2147483647 →
      readEndSw s.drv e s.drv._dir = false →
      ((e.ms - e0.ms : Nat) : Int) ≤ s.drv._maxTimeSec * 1000 →
      (overloadControl s.drv e).1 = 0 →
      (run (start s e0) e).drv.moveStatus = DRIVE_STATUS_IN_WORK) := by
  have hel : subU32 (millis e) (millis e0) = e.ms - e0.ms := by
    have := subU32_millis e e0
    omega
  have hthrT : 0 ≤ s.drv._maxTimeSec → s.drv._maxTimeSec * 1000 ≤ 2147483647 →
      ((toU32 (mulInt s.drv._maxTimeSec 1000) : Nat) : Int) = s.drv._maxTimeSec * 1000 := by
    intro hT0 hT1
    rw [toU32_mulInt]
    exact toU32_of_range _ (by omega) hT1
  have hthrG : 0 ≤ s.drv._overload_ms → s.drv._overload_ms * 1000 ≤ 2147483647 →
      ((toU32 (mulInt s.drv._overload_ms 1000) : Nat) : Int) = s.drv._overload_ms * 1000 := by
    intro hG0 hG1
    rw [toU32_mulInt]
    exact toU32_of_range _ (by omega) hG1
  have hstat := run_start_status s e0 e
  rw [hel] at hstat
  have hrep : e1.ms ≤ e.ms → e.ms - e1.ms < 4294967296 →
      0 ≤ s.drv._overload_ms → s.drv._overload_ms * 1000 ≤ 2147483647 →
      (s.drv.f_overCurr = true → s.drv.tmrOverload = millis e1) →
      ((overloadControl s.drv e).1 = 1 ↔
        ∃ a, s.drv._curr = some a ∧ s.drv.f_overCurr = true ∧
          (e.mem a).le s.drv._maxCurr = false ∧
          s.drv._overload_ms * 1000 < ((e.ms - e1.ms : Nat) : Int)) := by
    intro h1 h1lt hG0 hG1 hst
    have hel1 : subU32 (millis e) (millis e1) = e.ms - e1.ms := by
      have := subU32_millis e e1
      omega
    have hG := hthrG hG0 hG1
    rw [overloadControl_report_iff s.drv e1 e hst, hel1]
    constructor
    · rintro ⟨a, hc, hf, hle, hgt⟩
      exact ⟨a, hc, hf, hle, by omega⟩
    · rintro ⟨a, hc, hf, hle, hgt⟩
      exact ⟨a, hc, hf, hle, by omega⟩
  have hzero_or_one : (overloadControl s.drv e).1 ≠ 1 → (overloadControl s.drv e).1 = 0 := by
    intro hne
    by_contra hnz
    exact hne (overloadControl_report s.drv e hnz).2.2.1
  refine ⟨hel, ?_, ?_, hrep, ?_, ?_, ?_, ?_⟩
  · intro hT0 hT1 hsw
    have hT := hthrT hT0 hT1
    rw [hstat, hsw, if_neg (by decide)]
    constructor
    · intro h
      split at h
      · rename_i hc1
        exact ⟨hc1.1, by omega⟩
      · split at h
        · exact absurd h (by decide)
        · exact absurd h (by decide)
    · intro h
      rw [if_pos ⟨h.1, by omega⟩]
  · intro hT0 hT1 hwithin
    have hT := hthrT hT0 hT1
    rw [hstat]
    split
    · decide
    · rw [if_neg (fun hc1 => by omega)]
      split <;> decide
  · intro h1 h1lt hG0 hG1 hst hwithin
    apply hzero_or_one
    intro hone
    obtain ⟨a, -, -, -, hgt⟩ := (hrep h1 h1lt hG0 hG1 hst).mp hone
    omega
  · rintro (hoff | hnorm)
    · rw [overloadControl_off s.drv e hoff]
    · apply hzero_or_one
      intro hone
      have hne : (overloadControl s.drv e).1 ≠ 0 := by
        rw [hone]
        decide
      have hf := (overloadControl_report s.drv e hne).1
      rw [hnorm] at hf
      exact absurd hf (by decide)
  · intro hoc
    rw [hstat]
    split
    · decide
    · split
      · decide
      · rw [if_neg (by simpa using hoc)]
        decide
  · intro hT0 hT1 hsw hwithin hoc
    have hT := hthrT hT0 hT1
    rw [hstat, hsw, if_neg (by decide), if_neg (fun hc1 => by omega),
      if_neg (by simpa using hoc)]

/-- C18 across the wrap of `millis()`: on a controller with the monitor off
and a ceiling of 2 s, started at clock 4294967000, the poll 796 ms later
(`millis()` reads 500) leaves InProgress and the poll 2001 ms later sets
Overtime; on a controller whose latch went Suspect at clock 4294967000, the
call 796 ms later returns 0 and the call 300 001 ms later returns 1. -/
theorem C18_wraparound_elapsed_witness :
    (millis clk796 = 500 ∧ millis clkStart = 4294967000) ∧
    subU32 (millis clk796) (millis clkStart) = clk796.ms - clkStart.ms ∧
    ((run (start (setTime sys0 2) clkStart) clk796).drv.moveStatus = DRIVE_STATUS_OVERTIME ↔
      (setTime sys0 2).drv._maxTimeSec ≠ 0 ∧
        (setTime sys0 2).drv._maxTimeSec * 1000 < ((clk796.ms - clkStart.ms : Nat) : Int)) ∧
    (run (start (setTime sys0 2) clkStart) clk796).drv.moveStatus ≠ DRIVE_STATUS_OVERTIME ∧
    (run (start (setTime sys0 2) clkStart) clk2001).drv.moveStatus = DRIVE_STATUS_OVERTIME ∧
    (overloadControl (setTime sys0 2).drv clk796).1 = 0 ∧
    (run (start (setTime sys0 2) clkStart) clk796).drv.moveStatus = DRIVE_STATUS_IN_WORK ∧
    ((overloadControl sysC18.drv clk796).1 = 1 ↔
      ∃ a, sysC18.drv._curr = some a ∧ sysC18.drv.f_overCurr = true ∧
        (clk796.mem a).le sysC18.drv._maxCurr = false ∧
        sysC18.drv._overload_ms * 1000 < ((clk796.ms - clkStart.ms : Nat) : Int)) ∧
    (overloadControl sysC18.drv clk796).1 = 0 ∧
    (run (start sysC18 clkStart) clk796).drv.moveStatus ≠ DRIVE_STATUS_OVERLOAD ∧
    (overloadControl sysC18.drv clk300001).1 = 1 :=
  ⟨⟨by decide, by decide⟩,
    (C18_wraparound_elapsed (setTime sys0 2) clkStart clkStart clk796
      (by decide) (by decide)).1,
    (C18_wraparound_elapsed (setTime sys0 2) clkStart clkStart clk796
      (by decide) (by decide)).2.1 (by decide) (by decide) (by decide),
    (C18_wraparound_elapsed (setTime sys0 2) clkStart clkStart clk796
      (by decide) (by decide)).2.2.1 (by decide) (by decide) (by decide),
    ((C18_wraparound_elapsed (setTime sys0 2) clkStart clkStart clk2001
      (by decide) (by decide)).2.1 (by decide) (by decide) (by decide)).mpr
      ⟨by decide, by decide⟩,
    (C18_wraparound_elapsed (setTime sys0 2) clkStart clkStart clk796
      (by decide) (by decide)).2.2.2.2.2.1 (Or.inl rfl),
    (C18_wraparound_elapsed (setTime sys0 2) clkStart clkStart clk796
      (by decide) (by decide)).2.2.2.2.2.2.2 (by decide) (by decide) (by decide) (by decide)
      (by decide),
    (C18_wraparound_elapsed sysC18 clkStart clkStart clk796
      (by decide) (by decide)).2.2.2.1 (by decide) (by decide) (by decide) (by decide)
      (fun _ => by decide),
    (C18_wraparound_elapsed sysC18 clkStart clkStart clk796
      (by decide) (by decide)).2.2.2.2.1 (by decide) (by decide) (by decide) (by decide)
      (fun _ => by decide) (by decide),
    (C18_wraparound_elapsed sysC18 clkStart clkStart clk796
      (by decide) (by decide)).2.2.2.2.2.2.1 (by decide),
    ((C18_wraparound_elapsed sysC18 clkStart clkStart clk300001
      (by decide) (by decide)).2.2.2.1 (by decide) (by decide) (by decide) (by decide)
      (fun _ => by decide)).mpr ⟨0, by decide, by decide, by decide, by decide⟩⟩

/-! ## C19 -/

theorem overloadControl_normal (d : AdvDrive) (e : Env) (h : d.f_overCurr = false) :
    (overloadControl d e).1 = 0 := by
  by_contra hne
  have := (overloadControl_report d e hne).1
  rw [h] at this
  exact absurd this (by decide)

/-- C19: an `overloadControl()` call that returns 1 was made in the Suspect
state (`f_overCurr = 1`) and leaves the latch Normal (`f_overCurr = 0`), and
the call that follows it returns 0 for every clock and current value. -/
theorem C19_overload_one_shot (d : AdvDrive) (e e1 : Env)
    (h : (overloadControl d e).1 = 1) :
    d.f_overCurr = true ∧ (overloadControl d e).2.f_overCurr = false ∧
    (overloadControl (overloadControl d e).2 e1).1 = 0 := by
  have hne : (overloadControl d e).1 ≠ 0 := by
    rw [h]
    decide
  obtain ⟨hf, -, -, hn⟩ := overloadControl_report d e hne
  exact ⟨hf, hn, overloadControl_normal _ e1 hn⟩

/-- C19 on a latch that is Suspect since clock 0 with the reading held at 6.0:
the call at 1 000 000 ms reports, the next one a millisecond later does not. -/
theorem C19_overload_one_shot_witness :
    (overloadControl sysC1.drv (sample 1000000 true (.fin 6))).1 = 1 ∧
    sysC1.drv.f_overCurr = true ∧
    (overloadControl sysC1.drv (sample 1000000 true (.fin 6))).2.f_overCurr = false ∧
    (overloadControl (overloadControl sysC1.drv (sample 1000000 true (.fin 6))).2
      (sample 1000001 true (.fin 6))).1 = 0 :=
  ⟨by decide,
    C19_overload_one_shot sysC1.drv (sample 1000000 true (.fin 6))
      (sample 1000001 true (.fin 6)) (by decide)⟩

/-! ## C20 -/

/-- C20: `start()`, `setOverload()` and `offOverload()` leave `f_overCurr` and
`tmrOverload` as they were. So a latch left Suspect by a move that ended at
the limit switch carries over: after that move (latch Suspect since 5 ms,
status Ok), a new `start()` at clock 400 000 and a first `run()` 5 ms later
with the reading at 6.0 give Overload, although in the new move the reading
has been above 5.0 for 5 ms, less than the grace setting of 300. The same
happens after a first move that ended with Overtime. -/
theorem C20_latch_carries_over :
    (∀ (s : Sys) (e : Env), (start s e).drv.f_overCurr = s.drv.f_overCurr ∧
      (start s e).drv.tmrOverload = s.drv.tmrOverload) ∧
    (∀ (s : Sys) (curr : Option Nat) (maxCurr : CFloat) (time_ms : Nat),
      (setOverload s curr maxCurr time_ms).drv.f_overCurr = s.drv.f_overCurr ∧
      (setOverload s curr maxCurr time_ms).drv.tmrOverload = s.drv.tmrOverload) ∧
    (∀ s : Sys, (offOverload s).drv.f_overCurr = s.drv.f_overCurr ∧
      (offOverload s).drv.tmrOverload = s.drv.tmrOverload) ∧
    sysC20.drv.moveStatus = DRIVE_STATUS_OK ∧
    sysC20.drv.f_overCurr = true ∧ sysC20.drv.tmrOverload = 5 ∧
    sysC20.drv._overload_ms = 300 ∧
    (start sysC20 (sample 400000 true (.fin 6))).drv.moveStatus = DRIVE_STATUS_IN_WORK ∧
    (start sysC20 (sample 400000 true (.fin 6))).drv.f_overCurr = true ∧
    (run (start sysC20 (sample 400000 true (.fin 6)))
      (sample 400005 true (.fin 6))).drv.moveStatus = DRIVE_STATUS_OVERLOAD ∧
    sysC20t.drv.moveStatus = DRIVE_STATUS_OVERTIME ∧ sysC20t.drv.f_overCurr = true ∧
    (run (start sysC20t (sample 400000 true (.fin 6)))
      (sample 400005 true (.fin 6))).drv.moveStatus = DRIVE_STATUS_OVERLOAD := by
  refine ⟨fun s e => ?_, fun s curr maxCurr time_ms => ⟨rfl, rfl⟩, fun s => ⟨rfl, rfl⟩,
    by decide, by decide, by decide, by decide, by decide, by decide, by decide,
    by decide, by decide, by decide⟩
  rw [start_drv]
  exact ⟨rfl, rfl⟩

end AdvDrive
